import Mathlib

/-!
Shallow embedding of the tick-api TypeScript client (src/src/client.ts,
src/src/api/util.ts, src/src/api/clients.ts, src/src/api/projects.ts,
src/src/api/tasks.ts, and the entries/users API modules).

Modelling conventions:
* JavaScript's single process-wide mutable configuration cell
  (`globalConfig` in api/util.ts) is threaded explicitly as a value of
  type `Option TickConfig`.
* `throw new Error(msg)` becomes `Except.error msg`; the error message
  strings are reproduced verbatim from the source.
* The HTTP transport (`fetch`) is an explicit function argument from
  request arguments to a response; each operation also returns the list
  of requests it issued, so "no transport call is made" is the empty
  list.
* JavaScript numbers that the source uses as identifiers, page numbers,
  budgets and hours are modelled as `Int` (their `String(...)` form for
  integers agrees with `toString`).
* The zod response-shape validation (`z.parse` at the end of each
  operation) is the external validation collaborator; operations return
  the parsed JSON body (`response.json()`), the value handed to that
  collaborator.
-/

namespace TickApi

/-! ### JavaScript value model (for constructor validation) -/

/-- An untyped JavaScript value as far as `validateConfig` can observe it. -/
inductive JSVal where
  | undef
  | null
  | str (s : String)
  | num (n : Int)
  | bool (b : Bool)
deriving DecidableEq, Repr

/-- JavaScript truthiness of a `JSVal` (NaN is not modelled). -/
def JSVal.truthy : JSVal → Bool
  | .undef => false
  | .null => false
  | .str s => !(s == "")
  | .num n => !(n == 0)
  | .bool b => b

/-- JavaScript `typeof`. -/
def JSVal.typeof : JSVal → String
  | .undef => "undefined"
  | .null => "object"
  | .str _ => "string"
  | .num _ => "number"
  | .bool _ => "boolean"

/-- Whitespace as JavaScript's `String.prototype.trim` strips it
(ASCII whitespace, NBSP, BOM and the Unicode line separators). -/
def isJsWhitespace (c : Char) : Bool :=
  c == ' ' || c == '\t' || c == '\n' || c == '\r'
    || c.toNat == 11 || c.toNat == 12 || c.toNat == 0xA0
    || c.toNat == 0x2028 || c.toNat == 0x2029 || c.toNat == 0xFEFF

/-- JavaScript's `String.prototype.trim`: drop leading and trailing
whitespace. -/
def jsTrim (s : String) : String :=
  String.mk (((s.toList.dropWhile isJsWhitespace).reverse.dropWhile isJsWhitespace).reverse)

/-- `v.trim()`; only reached on strings thanks to short-circuiting. -/
def JSVal.trimmed : JSVal → String
  | .str s => jsTrim s
  | _ => ""

/-- The string carried by a string-valued `JSVal`. -/
def JSVal.asString : JSVal → String
  | .str s => s
  | _ => ""

/-! ### api/util.ts -/

/-- `TickConfig` interface of api/util.ts. -/
structure TickConfig where
  subscriptionId : String
  apiToken : String
  userAgent : String
deriving DecidableEq, Repr

/-- `BASE_URL` constant of api/util.ts. -/
def BASE_URL : String := "https://www.tickspot.com"

/-- `API_VERSION` constant of api/util.ts. -/
def API_VERSION : String := "v2"

/-- The error message thrown by `createHeaders`/`createUrl` when the
global configuration cell is `null`. -/
def noConfigMsg : String :=
  "Global configuration is not set. Please call setGlobalConfig() first."

/-- `createHeaders` of api/util.ts; the global cell is the explicit
first argument, `includeContentType` defaults to `true` at call sites
written `createHeaders()` (modelled by passing `true`). -/
def createHeaders (globalConfig : Option TickConfig) (includeContentType : Bool) :
    Except String (List (String × String)) :=
  match globalConfig with
  | none => .error noConfigMsg
  | some c =>
      .ok ([("Authorization", "Token token=" ++ c.apiToken),
            ("User-Agent", c.userAgent)] ++
        (if includeContentType then
          [("Content-Type", "application/json; charset=utf-8")]
        else []))

/-- `createUrl` of api/util.ts. -/
def createUrl (globalConfig : Option TickConfig) (path : String) :
    Except String String :=
  match globalConfig with
  | none => .error noConfigMsg
  | some c =>
      .ok (BASE_URL ++ "/" ++ c.subscriptionId ++ "/api/" ++ API_VERSION ++ "/" ++ path)

/-! ### JSON values and JSON.stringify -/

/-- A JSON value (request and response bodies). -/
inductive Json where
  | null
  | bool (b : Bool)
  | num (n : Int)
  | str (s : String)
  | arr (elems : List Json)
  | obj (fields : List (String × Json))
deriving Repr

/-- Lower-case hexadecimal digit (for JSON `\u00xx` escapes). -/
def hexDigitLower (n : Nat) : Char :=
  if n < 10 then Char.ofNat (48 + n) else Char.ofNat (87 + n)

/-- Four-digit hexadecimal rendering used by JSON string escapes. -/
def hex4 (n : Nat) : String :=
  String.mk [hexDigitLower (n / 4096 % 16), hexDigitLower (n / 256 % 16),
    hexDigitLower (n / 16 % 16), hexDigitLower (n % 16)]

/-- Escape one character the way `JSON.stringify` renders it inside a
string literal. -/
def jsonEscapeChar (c : Char) : String :=
  if c == '"' then "\\\""
  else if c == '\\' then "\\\\"
  else if c == '\n' then "\\n"
  else if c == '\r' then "\\r"
  else if c == '\t' then "\\t"
  else if c.toNat == 8 then "\\b"
  else if c.toNat == 12 then "\\f"
  else if c.toNat < 32 then "\\u" ++ hex4 c.toNat
  else String.singleton c

/-- `JSON.stringify` of a string value. -/
def jsonQuote (s : String) : String :=
  "\"" ++ String.join (s.toList.map jsonEscapeChar) ++ "\""

mutual

/-- `JSON.stringify` (no spacing arguments, as in the source). -/
def jsonStringify : Json → String
  | .null => "null"
  | .bool b => if b then "true" else "false"
  | .num n => toString n
  | .str s => jsonQuote s
  | .arr es => "[" ++ jsonStringifyList es ++ "]"
  | .obj fs => "\x7b" ++ jsonStringifyFields fs ++ "\x7d"

/-- Comma-separated serialization of array elements. -/
def jsonStringifyList : List Json → String
  | [] => ""
  | [j] => jsonStringify j
  | j :: rest => jsonStringify j ++ "," ++ jsonStringifyList rest

/-- Comma-separated serialization of object fields. -/
def jsonStringifyFields : List (String × Json) → String
  | [] => ""
  | [kv] => jsonQuote kv.1 ++ ":" ++ jsonStringify kv.2
  | kv :: rest => jsonQuote kv.1 ++ ":" ++ jsonStringify kv.2 ++ "," ++ jsonStringifyFields rest

end

/-! ### URLSearchParams serialization -/

/-- Upper-case hexadecimal digit (percent-encoding). -/
def hexDigitUpper (n : Nat) : Char :=
  if n < 10 then Char.ofNat (48 + n) else Char.ofNat (55 + n)

/-- Percent-encode a single byte. -/
def percentByte (b : Nat) : String :=
  "%" ++ String.mk [hexDigitUpper (b / 16), hexDigitUpper (b % 16)]

/-- One byte of the `application/x-www-form-urlencoded` serializer used
by `URLSearchParams.toString()`: space becomes `+`, ASCII alphanumerics
and `*`, `-`, `.`, `_` pass through, everything else is percent-encoded. -/
def urlencodedByte (b : Nat) : String :=
  if b == 32 then "+"
  else if (48 ≤ b && b ≤ 57) || (65 ≤ b && b ≤ 90) || (97 ≤ b && b ≤ 122)
      || b == 42 || b == 45 || b == 46 || b == 95 then
    String.singleton (Char.ofNat b)
  else percentByte b

/-- The UTF-8 byte sequence of one character (bytes as `Nat`). -/
def utf8Bytes (c : Char) : List Nat :=
  let v := c.toNat
  if v ≤ 0x7f then [v]
  else if v ≤ 0x7ff then [0xc0 + v / 64, 0x80 + v % 64]
  else if v ≤ 0xffff then [0xe0 + v / 4096, 0x80 + v / 64 % 64, 0x80 + v % 64]
  else [0xf0 + v / 262144, 0x80 + v / 4096 % 64, 0x80 + v / 64 % 64, 0x80 + v % 64]

/-- Form-urlencode a string (over its UTF-8 bytes). -/
def urlencode (s : String) : String :=
  String.join ((s.toList.flatMap utf8Bytes).map urlencodedByte)

/-- `URLSearchParams.toString()` for an append-ordered list of
key/value pairs. -/
def serializeQuery (pairs : List (String × String)) : String :=
  String.intercalate "&" (pairs.map fun kv => urlencode kv.1 ++ "=" ++ urlencode kv.2)

/-! ### Transport model -/

/-- The arguments of one `fetch` call. -/
structure FetchArgs where
  url : String
  method : String
  headers : List (String × String)
  body : Option String
deriving Repr

/-- A transport response: status, status text and parsed JSON body. -/
structure HttpResponse where
  status : Nat
  statusText : String
  body : Json

/-- `response.ok`: status in the 200..299 range. -/
def HttpResponse.ok (r : HttpResponse) : Bool :=
  200 ≤ r.status && r.status ≤ 299

/-- The HTTP transport, an external collaborator. -/
def Transport : Type := FetchArgs → HttpResponse

/-- Helper for serializing an optional string field the way
`JSON.stringify` does (an `undefined` property is dropped). -/
def optField (key : String) : Option Json → List (String × Json)
  | none => []
  | some j => [(key, j)]

/-! ### api/users.ts -/

/-- `CreateUserParams` of api/users.ts. -/
structure CreateUserParams where
  first_name : String
  last_name : String
  email : String
  admin : Option Bool
  billable_rate : Option String
deriving DecidableEq, Repr

/-- The JSON object `JSON.stringify` sees for a `CreateUserParams`
value (fields in declaration order, `undefined` optionals dropped). -/
def CreateUserParams.toJson (p : CreateUserParams) : Json :=
  .obj ([("first_name", .str p.first_name), ("last_name", .str p.last_name),
      ("email", .str p.email)]
    ++ optField "admin" (p.admin.map Json.bool)
    ++ optField "billable_rate" (p.billable_rate.map Json.str))

/-- `getUsers` of api/users.ts. -/
def getUsers (globalConfig : Option TickConfig) (tr : Transport) :
    Except String Json × List FetchArgs :=
  match createUrl globalConfig "users.json" with
  | .error e => (.error e, [])
  | .ok url =>
    match createHeaders globalConfig false with
    | .error e => (.error e, [])
    | .ok headers =>
      let req : FetchArgs := ⟨url, "GET", headers, none⟩
      let response := tr req
      if !response.ok then
        (.error ("Failed to fetch users: " ++ toString response.status ++ " "
          ++ response.statusText), [req])
      else
        (.ok response.body, [req])

/-- `getDeletedUsers` of api/users.ts. -/
def getDeletedUsers (globalConfig : Option TickConfig) (tr : Transport) :
    Except String Json × List FetchArgs :=
  match createUrl globalConfig "users/deleted.json" with
  | .error e => (.error e, [])
  | .ok url =>
    match createHeaders globalConfig false with
    | .error e => (.error e, [])
    | .ok headers =>
      let req : FetchArgs := ⟨url, "GET", headers, none⟩
      let response := tr req
      if response.status == 403 then
        (.error "Forbidden: Only administrators can access deleted users", [req])
      else if !response.ok then
        (.error ("Failed to fetch deleted users: " ++ toString response.status ++ " "
          ++ response.statusText), [req])
      else
        (.ok response.body, [req])

/-- `createUser` of api/users.ts (body wraps the params under `user`). -/
def createUser (globalConfig : Option TickConfig) (params : CreateUserParams)
    (tr : Transport) : Except String Json × List FetchArgs :=
  match createUrl globalConfig "users.json" with
  | .error e => (.error e, [])
  | .ok url =>
    match createHeaders globalConfig true with
    | .error e => (.error e, [])
    | .ok headers =>
      let req : FetchArgs :=
        ⟨url, "POST", headers, some (jsonStringify (.obj [("user", params.toJson)]))⟩
      let response := tr req
      if response.status == 403 then
        (.error "Forbidden: Only administrators can create users", [req])
      else if !response.ok then
        (.error ("Failed to create user: " ++ toString response.status ++ " "
          ++ response.statusText), [req])
      else
        (.ok response.body, [req])

/-! ### api/clients.ts -/

/-- `CreateClientParams` (also `UpdateClientParams`) of api/clients.ts. -/
structure CreateClientParams where
  name : String
  archive : Option Bool
deriving DecidableEq, Repr

/-- JSON object for a `CreateClientParams` value. -/
def CreateClientParams.toJson (p : CreateClientParams) : Json :=
  .obj ([("name", .str p.name)] ++ optField "archive" (p.archive.map Json.bool))

/-- `getClients` of api/clients.ts. -/
def getClients (globalConfig : Option TickConfig) (tr : Transport) :
    Except String Json × List FetchArgs :=
  match createUrl globalConfig "clients.json" with
  | .error e => (.error e, [])
  | .ok url =>
    match createHeaders globalConfig false with
    | .error e => (.error e, [])
    | .ok headers =>
      let req : FetchArgs := ⟨url, "GET", headers, none⟩
      let response := tr req
      if !response.ok then
        (.error ("Failed to fetch clients: " ++ toString response.status ++ " "
          ++ response.statusText), [req])
      else
        (.ok response.body, [req])

/-- `getAllClients` of api/clients.ts. -/
def getAllClients (globalConfig : Option TickConfig) (tr : Transport) :
    Except String Json × List FetchArgs :=
  match createUrl globalConfig "clients/all.json" with
  | .error e => (.error e, [])
  | .ok url =>
    match createHeaders globalConfig false with
    | .error e => (.error e, [])
    | .ok headers =>
      let req : FetchArgs := ⟨url, "GET", headers, none⟩
      let response := tr req
      if !response.ok then
        (.error ("Failed to fetch all clients: " ++ toString response.status ++ " "
          ++ response.statusText), [req])
      else
        (.ok response.body, [req])

/-- `getClient` of api/clients.ts. -/
def getClient (globalConfig : Option TickConfig) (id : Int) (tr : Transport) :
    Except String Json × List FetchArgs :=
  match createUrl globalConfig ("clients/" ++ toString id ++ ".json") with
  | .error e => (.error e, [])
  | .ok url =>
    match createHeaders globalConfig false with
    | .error e => (.error e, [])
    | .ok headers =>
      let req : FetchArgs := ⟨url, "GET", headers, none⟩
      let response := tr req
      if !response.ok then
        (.error ("Failed to fetch client with ID " ++ toString id ++ ": "
          ++ toString response.status ++ " " ++ response.statusText), [req])
      else
        (.ok response.body, [req])

/-- `createClient` of api/clients.ts (body is the bare params object). -/
def createClient (globalConfig : Option TickConfig) (params : CreateClientParams)
    (tr : Transport) : Except String Json × List FetchArgs :=
  match createUrl globalConfig "clients.json" with
  | .error e => (.error e, [])
  | .ok url =>
    match createHeaders globalConfig true with
    | .error e => (.error e, [])
    | .ok headers =>
      let req : FetchArgs := ⟨url, "POST", headers, some (jsonStringify params.toJson)⟩
      let response := tr req
      if response.status == 403 then
        (.error "Forbidden: Only administrators can create clients", [req])
      else if !response.ok then
        (.error ("Failed to create client: " ++ toString response.status ++ " "
          ++ response.statusText), [req])
      else
        (.ok response.body, [req])

/-- `updateClient` of api/clients.ts. -/
def updateClient (globalConfig : Option TickConfig) (id : Int)
    (params : CreateClientParams) (tr : Transport) :
    Except String Json × List FetchArgs :=
  match createUrl globalConfig ("clients/" ++ toString id ++ ".json") with
  | .error e => (.error e, [])
  | .ok url =>
    match createHeaders globalConfig true with
    | .error e => (.error e, [])
    | .ok headers =>
      let req : FetchArgs := ⟨url, "PUT", headers, some (jsonStringify params.toJson)⟩
      let response := tr req
      if response.status == 403 then
        (.error "Forbidden: Only administrators can update clients", [req])
      else if !response.ok then
        (.error ("Failed to update client with ID " ++ toString id ++ ": "
          ++ toString response.status ++ " " ++ response.statusText), [req])
      else
        (.ok response.body, [req])

/-- `deleteClient` of api/clients.ts (403 and 406 are mapped to fixed
messages before the generic non-success check; success returns no body). -/
def deleteClient (globalConfig : Option TickConfig) (id : Int) (tr : Transport) :
    Except String Unit × List FetchArgs :=
  match createUrl globalConfig ("clients/" ++ toString id ++ ".json") with
  | .error e => (.error e, [])
  | .ok url =>
    match createHeaders globalConfig false with
    | .error e => (.error e, [])
    | .ok headers =>
      let req : FetchArgs := ⟨url, "DELETE", headers, none⟩
      let response := tr req
      if response.status == 403 then
        (.error "Forbidden: Only administrators can delete clients", [req])
      else if response.status == 406 then
        (.error "Client cannot be deleted because it still has associated projects", [req])
      else if !response.ok then
        (.error ("Failed to delete client with ID " ++ toString id ++ ": "
          ++ toString response.status ++ " " ++ response.statusText), [req])
      else
        (.ok (), [req])

/-! ### api/projects.ts -/

/-- `CreateProjectParams` of api/projects.ts (all fields required). -/
structure CreateProjectParams where
  name : String
  budget : Int
  notifications : Bool
  billable : Bool
  recurring : Bool
  client_id : Int
  owner_id : Int
deriving DecidableEq, Repr

/-- JSON object for a `CreateProjectParams` value. -/
def CreateProjectParams.toJson (p : CreateProjectParams) : Json :=
  .obj [("name", .str p.name), ("budget", .num p.budget),
    ("notifications", .bool p.notifications), ("billable", .bool p.billable),
    ("recurring", .bool p.recurring), ("client_id", .num p.client_id),
    ("owner_id", .num p.owner_id)]

/-- `UpdateProjectParams` of api/projects.ts (all fields optional). -/
structure UpdateProjectParams where
  name : Option String
  budget : Option Int
  notifications : Option Bool
  billable : Option Bool
  recurring : Option Bool
  client_id : Option Int
  owner_id : Option Int
deriving DecidableEq, Repr

/-- JSON object for an `UpdateProjectParams` value. -/
def UpdateProjectParams.toJson (p : UpdateProjectParams) : Json :=
  .obj (optField "name" (p.name.map Json.str)
    ++ optField "budget" (p.budget.map Json.num)
    ++ optField "notifications" (p.notifications.map Json.bool)
    ++ optField "billable" (p.billable.map Json.bool)
    ++ optField "recurring" (p.recurring.map Json.bool)
    ++ optField "client_id" (p.client_id.map Json.num)
    ++ optField "owner_id" (p.owner_id.map Json.num))

/-- `GetProjectsParams` of api/projects.ts. -/
structure GetProjectsParams where
  page : Option Int
deriving DecidableEq, Repr

/-- The query string `getProjects`/`getClosedProjects` build:
`if (params.page)` is a JavaScript truthiness test, so `page` is
appended only when present and nonzero. -/
def projectsQueryString (params : GetProjectsParams) : String :=
  match params.page with
  | some n => if !(n == 0) then serializeQuery [("page", toString n)] else ""
  | none => ""

/-- `getProjects` of api/projects.ts (the `?` is added only when the
serialized query string is nonempty). -/
def getProjects (globalConfig : Option TickConfig) (params : GetProjectsParams)
    (tr : Transport) : Except String Json × List FetchArgs :=
  let queryString := projectsQueryString params
  match createUrl globalConfig
      (if !(queryString == "") then "projects.json?" ++ queryString else "projects.json") with
  | .error e => (.error e, [])
  | .ok url =>
    match createHeaders globalConfig false with
    | .error e => (.error e, [])
    | .ok headers =>
      let req : FetchArgs := ⟨url, "GET", headers, none⟩
      let response := tr req
      if !response.ok then
        (.error ("Failed to fetch projects: " ++ toString response.status ++ " "
          ++ response.statusText), [req])
      else
        (.ok response.body, [req])

/-- `getClosedProjects` of api/projects.ts. -/
def getClosedProjects (globalConfig : Option TickConfig) (params : GetProjectsParams)
    (tr : Transport) : Except String Json × List FetchArgs :=
  let queryString := projectsQueryString params
  match createUrl globalConfig
      (if !(queryString == "") then "projects/closed.json?" ++ queryString
       else "projects/closed.json") with
  | .error e => (.error e, [])
  | .ok url =>
    match createHeaders globalConfig false with
    | .error e => (.error e, [])
    | .ok headers =>
      let req : FetchArgs := ⟨url, "GET", headers, none⟩
      let response := tr req
      if !response.ok then
        (.error ("Failed to fetch closed projects: " ++ toString response.status ++ " "
          ++ response.statusText), [req])
      else
        (.ok response.body, [req])

/-- `getProject` of api/projects.ts. -/
def getProject (globalConfig : Option TickConfig) (id : Int) (tr : Transport) :
    Except String Json × List FetchArgs :=
  match createUrl globalConfig ("projects/" ++ toString id ++ ".json") with
  | .error e => (.error e, [])
  | .ok url =>
    match createHeaders globalConfig false with
    | .error e => (.error e, [])
    | .ok headers =>
      let req : FetchArgs := ⟨url, "GET", headers, none⟩
      let response := tr req
      if !response.ok then
        (.error ("Failed to fetch project with ID " ++ toString id ++ ": "
          ++ toString response.status ++ " " ++ response.statusText), [req])
      else
        (.ok response.body, [req])

/-- `createProject` of api/projects.ts (body wraps the params under
`project`). -/
def createProject (globalConfig : Option TickConfig) (params : CreateProjectParams)
    (tr : Transport) : Except String Json × List FetchArgs :=
  match createUrl globalConfig "projects.json" with
  | .error e => (.error e, [])
  | .ok url =>
    match createHeaders globalConfig true with
    | .error e => (.error e, [])
    | .ok headers =>
      let req : FetchArgs :=
        ⟨url, "POST", headers, some (jsonStringify (.obj [("project", params.toJson)]))⟩
      let response := tr req
      if response.status == 403 then
        (.error "Forbidden: Only administrators can create projects", [req])
      else if !response.ok then
        (.error ("Failed to create project: " ++ toString response.status ++ " "
          ++ response.statusText), [req])
      else
        (.ok response.body, [req])

/-- `updateProject` of api/projects.ts (body wraps the params under
`project`). -/
def updateProject (globalConfig : Option TickConfig) (id : Int)
    (params : UpdateProjectParams) (tr : Transport) :
    Except String Json × List FetchArgs :=
  match createUrl globalConfig ("projects/" ++ toString id ++ ".json") with
  | .error e => (.error e, [])
  | .ok url =>
    match createHeaders globalConfig true with
    | .error e => (.error e, [])
    | .ok headers =>
      let req : FetchArgs :=
        ⟨url, "PUT", headers, some (jsonStringify (.obj [("project", params.toJson)]))⟩
      let response := tr req
      if response.status == 403 then
        (.error "Forbidden: Only administrators can update projects", [req])
      else if !response.ok then
        (.error ("Failed to update project with ID " ++ toString id ++ ": "
          ++ toString response.status ++ " " ++ response.statusText), [req])
      else
        (.ok response.body, [req])

/-- `deleteProject` of api/projects.ts. -/
def deleteProject (globalConfig : Option TickConfig) (id : Int) (tr : Transport) :
    Except String Unit × List FetchArgs :=
  match createUrl globalConfig ("projects/" ++ toString id ++ ".json") with
  | .error e => (.error e, [])
  | .ok url =>
    match createHeaders globalConfig false with
    | .error e => (.error e, [])
    | .ok headers =>
      let req : FetchArgs := ⟨url, "DELETE", headers, none⟩
      let response := tr req
      if response.status == 403 then
        (.error "Forbidden: Only administrators can delete projects", [req])
      else if !response.ok then
        (.error ("Failed to delete project with ID " ++ toString id ++ ": "
          ++ toString response.status ++ " " ++ response.statusText), [req])
      else
        (.ok (), [req])

/-! ### api/tasks.ts -/

/-- `CreateTaskParams` of api/tasks.ts. -/
structure CreateTaskParams where
  name : String
  budget : Int
  project_id : Int
  billable : Bool
deriving DecidableEq, Repr

/-- JSON object for a `CreateTaskParams` value. -/
def CreateTaskParams.toJson (p : CreateTaskParams) : Json :=
  .obj [("name", .str p.name), ("budget", .num p.budget),
    ("project_id", .num p.project_id), ("billable", .bool p.billable)]

/-- `UpdateTaskParams` of api/tasks.ts. -/
structure UpdateTaskParams where
  name : Option String
  budget : Option Int
  project_id : Option Int
  billable : Option Bool
deriving DecidableEq, Repr

/-- JSON object for an `UpdateTaskParams` value. -/
def UpdateTaskParams.toJson (p : UpdateTaskParams) : Json :=
  .obj (optField "name" (p.name.map Json.str)
    ++ optField "budget" (p.budget.map Json.num)
    ++ optField "project_id" (p.project_id.map Json.num)
    ++ optField "billable" (p.billable.map Json.bool))

/-- `getProjectTasks` of api/tasks.ts. -/
def getProjectTasks (globalConfig : Option TickConfig) (projectId : Int)
    (tr : Transport) : Except String Json × List FetchArgs :=
  match createUrl globalConfig ("projects/" ++ toString projectId ++ "/tasks.json") with
  | .error e => (.error e, [])
  | .ok url =>
    match createHeaders globalConfig false with
    | .error e => (.error e, [])
    | .ok headers =>
      let req : FetchArgs := ⟨url, "GET", headers, none⟩
      let response := tr req
      if !response.ok then
        (.error ("Failed to fetch tasks for project " ++ toString projectId ++ ": "
          ++ toString response.status ++ " " ++ response.statusText), [req])
      else
        (.ok response.body, [req])

/-- `getTasks` of api/tasks.ts. -/
def getTasks (globalConfig : Option TickConfig) (tr : Transport) :
    Except String Json × List FetchArgs :=
  match createUrl globalConfig "tasks.json" with
  | .error e => (.error e, [])
  | .ok url =>
    match createHeaders globalConfig false with
    | .error e => (.error e, [])
    | .ok headers =>
      let req : FetchArgs := ⟨url, "GET", headers, none⟩
      let response := tr req
      if !response.ok then
        (.error ("Failed to fetch tasks: " ++ toString response.status ++ " "
          ++ response.statusText), [req])
      else
        (.ok response.body, [req])

/-- `getProjectClosedTasks` of api/tasks.ts. -/
def getProjectClosedTasks (globalConfig : Option TickConfig) (projectId : Int)
    (tr : Transport) : Except String Json × List FetchArgs :=
  match createUrl globalConfig
      ("projects/" ++ toString projectId ++ "/tasks/closed.json") with
  | .error e => (.error e, [])
  | .ok url =>
    match createHeaders globalConfig false with
    | .error e => (.error e, [])
    | .ok headers =>
      let req : FetchArgs := ⟨url, "GET", headers, none⟩
      let response := tr req
      if !response.ok then
        (.error ("Failed to fetch closed tasks for project " ++ toString projectId ++ ": "
          ++ toString response.status ++ " " ++ response.statusText), [req])
      else
        (.ok response.body, [req])

/-- `getClosedTasks` of api/tasks.ts. -/
def getClosedTasks (globalConfig : Option TickConfig) (tr : Transport) :
    Except String Json × List FetchArgs :=
  match createUrl globalConfig "tasks/closed.json" with
  | .error e => (.error e, [])
  | .ok url =>
    match createHeaders globalConfig false with
    | .error e => (.error e, [])
    | .ok headers =>
      let req : FetchArgs := ⟨url, "GET", headers, none⟩
      let response := tr req
      if !response.ok then
        (.error ("Failed to fetch closed tasks: " ++ toString response.status ++ " "
          ++ response.statusText), [req])
      else
        (.ok response.body, [req])

/-- `getTask` of api/tasks.ts (task ids are strings). -/
def getTask (globalConfig : Option TickConfig) (id : String) (tr : Transport) :
    Except String Json × List FetchArgs :=
  match createUrl globalConfig ("tasks/" ++ id ++ ".json") with
  | .error e => (.error e, [])
  | .ok url =>
    match createHeaders globalConfig false with
    | .error e => (.error e, [])
    | .ok headers =>
      let req : FetchArgs := ⟨url, "GET", headers, none⟩
      let response := tr req
      if !response.ok then
        (.error ("Failed to fetch task with ID " ++ id ++ ": "
          ++ toString response.status ++ " " ++ response.statusText), [req])
      else
        (.ok response.body, [req])

/-- `createTask` of api/tasks.ts (bare params body; the 403 branch sits
inside the non-success check). -/
def createTask (globalConfig : Option TickConfig) (params : CreateTaskParams)
    (tr : Transport) : Except String Json × List FetchArgs :=
  match createUrl globalConfig "tasks.json" with
  | .error e => (.error e, [])
  | .ok url =>
    match createHeaders globalConfig true with
    | .error e => (.error e, [])
    | .ok headers =>
      let req : FetchArgs := ⟨url, "POST", headers, some (jsonStringify params.toJson)⟩
      let response := tr req
      if !response.ok then
        if response.status == 403 then
          (.error "Failed to create task: Only administrators can create tasks", [req])
        else
          (.error ("Failed to create task: " ++ toString response.status ++ " "
            ++ response.statusText), [req])
      else
        (.ok response.body, [req])

/-- `updateTask` of api/tasks.ts. -/
def updateTask (globalConfig : Option TickConfig) (id : String)
    (params : UpdateTaskParams) (tr : Transport) :
    Except String Json × List FetchArgs :=
  match createUrl globalConfig ("tasks/" ++ id ++ ".json") with
  | .error e => (.error e, [])
  | .ok url =>
    match createHeaders globalConfig true with
    | .error e => (.error e, [])
    | .ok headers =>
      let req : FetchArgs := ⟨url, "PUT", headers, some (jsonStringify params.toJson)⟩
      let response := tr req
      if !response.ok then
        if response.status == 403 then
          (.error "Failed to update task: Only administrators can update tasks", [req])
        else
          (.error ("Failed to update task with ID " ++ id ++ ": "
            ++ toString response.status ++ " " ++ response.statusText), [req])
      else
        (.ok response.body, [req])

/-- `deleteTask` of api/tasks.ts (403 and 406 branches sit inside the
non-success check; success returns no body). -/
def deleteTask (globalConfig : Option TickConfig) (id : String) (tr : Transport) :
    Except String Unit × List FetchArgs :=
  match createUrl globalConfig ("tasks/" ++ id ++ ".json") with
  | .error e => (.error e, [])
  | .ok url =>
    match createHeaders globalConfig false with
    | .error e => (.error e, [])
    | .ok headers =>
      let req : FetchArgs := ⟨url, "DELETE", headers, none⟩
      let response := tr req
      if !response.ok then
        if response.status == 403 then
          (.error "Failed to delete task: Only administrators can delete tasks", [req])
        else if response.status == 406 then
          (.error "Failed to delete task: Only tasks without any entries can be deleted", [req])
        else
          (.error ("Failed to delete task with ID " ++ id ++ ": "
            ++ toString response.status ++ " " ++ response.statusText), [req])
      else
        (.ok (), [req])

/-! ### api/entries.ts -/

/-- `GetEntriesParams` of api/entries.ts: every filter field is
optional; a `some ""` models a supplied-but-empty string. -/
structure GetEntriesParams where
  start_date : Option String
  end_date : Option String
  updated_at : Option String
  billable : Option Bool
  project_id : Option Int
  task_id : Option Int
  user_id : Option Int
  billed : Option Bool
deriving DecidableEq, Repr

/-- JavaScript truthiness of an optional string field (`undefined` and
the empty string are falsy). -/
def truthyStr : Option String → Bool
  | none => false
  | some s => !(s == "")

/-- The validation condition shared verbatim by the four
entries-listing functions:
`(!params.start_date || !params.end_date) && !params.updated_at`. -/
def entriesParamsMissing (params : GetEntriesParams) : Bool :=
  (!truthyStr params.start_date || !truthyStr params.end_date)
    && !truthyStr params.updated_at

/-- The validation error message of the entries-listing family. -/
def entriesValidationMsg : String :=
  "Either start_date and end_date OR updated_at must be provided"

/-- One loop step of the query builder for a string-valued field:
append `(key, String(value))` when the field is defined, nothing when
it is `undefined`. -/
def qStr (key : String) : Option String → List (String × String)
  | none => []
  | some s => [(key, s)]

/-- Loop step for a boolean-valued field (`String(true) = "true"`). -/
def qBool (key : String) : Option Bool → List (String × String)
  | none => []
  | some b => [(key, if b then "true" else "false")]

/-- Loop step for a numeric field (`String(n)` is its decimal form). -/
def qInt (key : String) : Option Int → List (String × String)
  | none => []
  | some n => [(key, toString n)]

/-- `String(value)` for the defined fields appended to
`URLSearchParams`, one list entry per defined field, in the field order
of `GetEntriesParams`. -/
def GetEntriesParams.queryPairs (params : GetEntriesParams) : List (String × String) :=
  qStr "start_date" params.start_date
  ++ qStr "end_date" params.end_date
  ++ qStr "updated_at" params.updated_at
  ++ qBool "billable" params.billable
  ++ qInt "project_id" params.project_id
  ++ qInt "task_id" params.task_id
  ++ qInt "user_id" params.user_id
  ++ qBool "billed" params.billed

/-- `getEntries` of api/entries.ts: the cross-field validation runs
before the URL is built or any transport call happens. -/
def getEntries (globalConfig : Option TickConfig) (params : GetEntriesParams)
    (tr : Transport) : Except String Json × List FetchArgs :=
  if entriesParamsMissing params then
    (.error entriesValidationMsg, [])
  else
    match createUrl globalConfig ("entries.json?" ++ serializeQuery params.queryPairs) with
    | .error e => (.error e, [])
    | .ok url =>
      match createHeaders globalConfig false with
      | .error e => (.error e, [])
      | .ok headers =>
        let req : FetchArgs := ⟨url, "GET", headers, none⟩
        let response := tr req
        if !response.ok then
          (.error ("Failed to fetch entries: " ++ toString response.status ++ " "
            ++ response.statusText), [req])
        else
          (.ok response.body, [req])

/-- `getUserEntries` of api/entries.ts. -/
def getUserEntries (globalConfig : Option TickConfig) (userId : Int)
    (params : GetEntriesParams) (tr : Transport) :
    Except String Json × List FetchArgs :=
  if entriesParamsMissing params then
    (.error entriesValidationMsg, [])
  else
    match createUrl globalConfig
        ("users/" ++ toString userId ++ "/entries.json?"
          ++ serializeQuery params.queryPairs) with
    | .error e => (.error e, [])
    | .ok url =>
      match createHeaders globalConfig false with
      | .error e => (.error e, [])
      | .ok headers =>
        let req : FetchArgs := ⟨url, "GET", headers, none⟩
        let response := tr req
        if !response.ok then
          (.error ("Failed to fetch entries for user " ++ toString userId ++ ": "
            ++ toString response.status ++ " " ++ response.statusText), [req])
        else
          (.ok response.body, [req])

/-- `getProjectEntries` of api/entries.ts. -/
def getProjectEntries (globalConfig : Option TickConfig) (projectId : Int)
    (params : GetEntriesParams) (tr : Transport) :
    Except String Json × List FetchArgs :=
  if entriesParamsMissing params then
    (.error entriesValidationMsg, [])
  else
    match createUrl globalConfig
        ("projects/" ++ toString projectId ++ "/entries.json?"
          ++ serializeQuery params.queryPairs) with
    | .error e => (.error e, [])
    | .ok url =>
      match createHeaders globalConfig false with
      | .error e => (.error e, [])
      | .ok headers =>
        let req : FetchArgs := ⟨url, "GET", headers, none⟩
        let response := tr req
        if !response.ok then
          (.error ("Failed to fetch entries for project " ++ toString projectId ++ ": "
            ++ toString response.status ++ " " ++ response.statusText), [req])
        else
          (.ok response.body, [req])

/-- `getTaskEntries` of api/entries.ts. -/
def getTaskEntries (globalConfig : Option TickConfig) (taskId : Int)
    (params : GetEntriesParams) (tr : Transport) :
    Except String Json × List FetchArgs :=
  if entriesParamsMissing params then
    (.error entriesValidationMsg, [])
  else
    match createUrl globalConfig
        ("tasks/" ++ toString taskId ++ "/entries.json?"
          ++ serializeQuery params.queryPairs) with
    | .error e => (.error e, [])
    | .ok url =>
      match createHeaders globalConfig false with
      | .error e => (.error e, [])
      | .ok headers =>
        let req : FetchArgs := ⟨url, "GET", headers, none⟩
        let response := tr req
        if !response.ok then
          (.error ("Failed to fetch entries for task " ++ toString taskId ++ ": "
            ++ toString response.status ++ " " ++ response.statusText), [req])
        else
          (.ok response.body, [req])

/-- `CreateEntryParams` of api/entries.ts. -/
structure CreateEntryParams where
  date : String
  hours : Int
  notes : String
  task_id : Int
  user_id : Option Int
deriving DecidableEq, Repr

/-- JSON object for a `CreateEntryParams` value. -/
def CreateEntryParams.toJson (p : CreateEntryParams) : Json :=
  .obj ([("date", .str p.date), ("hours", .num p.hours), ("notes", .str p.notes),
    ("task_id", .num p.task_id)] ++ optField "user_id" (p.user_id.map Json.num))

/-- `UpdateEntryParams` of api/entries.ts. -/
structure UpdateEntryParams where
  date : Option String
  hours : Option Int
  notes : Option String
  task_id : Option Int
  user_id : Option Int
  billed : Option Bool
deriving DecidableEq, Repr

/-- JSON object for an `UpdateEntryParams` value. -/
def UpdateEntryParams.toJson (p : UpdateEntryParams) : Json :=
  .obj (optField "date" (p.date.map Json.str)
    ++ optField "hours" (p.hours.map Json.num)
    ++ optField "notes" (p.notes.map Json.str)
    ++ optField "task_id" (p.task_id.map Json.num)
    ++ optField "user_id" (p.user_id.map Json.num)
    ++ optField "billed" (p.billed.map Json.bool))

/-- `getEntry` of api/entries.ts (entry ids are strings). -/
def getEntry (globalConfig : Option TickConfig) (id : String) (tr : Transport) :
    Except String Json × List FetchArgs :=
  match createUrl globalConfig ("entries/" ++ id ++ ".json") with
  | .error e => (.error e, [])
  | .ok url =>
    match createHeaders globalConfig false with
    | .error e => (.error e, [])
    | .ok headers =>
      let req : FetchArgs := ⟨url, "GET", headers, none⟩
      let response := tr req
      if !response.ok then
        (.error ("Failed to fetch entry with ID " ++ id ++ ": "
          ++ toString response.status ++ " " ++ response.statusText), [req])
      else
        (.ok response.body, [req])

/-- `createEntry` of api/entries.ts (bare params body). -/
def createEntry (globalConfig : Option TickConfig) (params : CreateEntryParams)
    (tr : Transport) : Except String Json × List FetchArgs :=
  match createUrl globalConfig "entries.json" with
  | .error e => (.error e, [])
  | .ok url =>
    match createHeaders globalConfig true with
    | .error e => (.error e, [])
    | .ok headers =>
      let req : FetchArgs := ⟨url, "POST", headers, some (jsonStringify params.toJson)⟩
      let response := tr req
      if !response.ok then
        (.error ("Failed to create entry: " ++ toString response.status ++ " "
          ++ response.statusText), [req])
      else
        (.ok response.body, [req])

/-- `updateEntry` of api/entries.ts. -/
def updateEntry (globalConfig : Option TickConfig) (id : String)
    (params : UpdateEntryParams) (tr : Transport) :
    Except String Json × List FetchArgs :=
  match createUrl globalConfig ("entries/" ++ id ++ ".json") with
  | .error e => (.error e, [])
  | .ok url =>
    match createHeaders globalConfig true with
    | .error e => (.error e, [])
    | .ok headers =>
      let req : FetchArgs := ⟨url, "PUT", headers, some (jsonStringify params.toJson)⟩
      let response := tr req
      if !response.ok then
        (.error ("Failed to update entry with ID " ++ id ++ ": "
          ++ toString response.status ++ " " ++ response.statusText), [req])
      else
        (.ok response.body, [req])

/-- `deleteEntry` of api/entries.ts. -/
def deleteEntry (globalConfig : Option TickConfig) (id : String) (tr : Transport) :
    Except String Unit × List FetchArgs :=
  match createUrl globalConfig ("entries/" ++ id ++ ".json") with
  | .error e => (.error e, [])
  | .ok url =>
    match createHeaders globalConfig false with
    | .error e => (.error e, [])
    | .ok headers =>
      let req : FetchArgs := ⟨url, "DELETE", headers, none⟩
      let response := tr req
      if !response.ok then
        (.error ("Failed to delete entry with ID " ++ id ++ ": "
          ++ toString response.status ++ " " ++ response.statusText), [req])
      else
        (.ok (), [req])

/-! ### client.ts: the TickClient façade -/

/-- The constructor argument as JavaScript sees it: the three declared
fields (each an arbitrary JavaScript value) plus any extra properties
the caller's object carries. -/
structure TickConfigInput where
  subscriptionId : JSVal
  apiToken : JSVal
  userAgent : JSVal
  extra : List (String × JSVal)
deriving DecidableEq, Repr

/-- One per-field test of `validateConfig`:
`!v || typeof v !== "string" || v.trim() === ""`. -/
def fieldInvalid (v : JSVal) : Bool :=
  !v.truthy || !(v.typeof == "string") || (v.trimmed == "")

/-- The `errors` array `validateConfig` accumulates, in push order. -/
def validateConfigErrors (config : TickConfigInput) : List String :=
  (if fieldInvalid config.subscriptionId then
    ["subscriptionId is required and must be a non-empty string"] else [])
  ++ (if fieldInvalid config.apiToken then
    ["apiToken is required and must be a non-empty string"] else [])
  ++ (if fieldInvalid config.userAgent then
    ["userAgent is required and must be a non-empty string"] else [])

/-- The façade: one instance owns one validated configuration. -/
structure TickClient where
  config : TickConfig
deriving DecidableEq, Repr

/-- The `TickClient` constructor: run `validateConfig` (throwing a
single error joining all collected messages) and store a fresh object
with exactly the three recognized fields. -/
def TickClient.make (config : TickConfigInput) : Except String TickClient :=
  let errors := validateConfigErrors config
  if errors.length > 0 then
    .error ("Invalid TickClient configuration: " ++ String.intercalate ", " errors)
  else
    .ok ⟨⟨config.subscriptionId.asString, config.apiToken.asString,
      config.userAgent.asString⟩⟩

/-- `TickClient.withConfig`: capture the global cell, set it to the
instance's configuration, run the wrapped operation (which may read and
even write the cell), and in the `finally` clause restore the captured
value before propagating the operation's result; the state the wrapped
operation leaves behind is overwritten by the restore. -/
def withConfig {ε α : Type} (cfg : TickConfig)
    (fn : Option TickConfig → Except ε α × Option TickConfig)
    (st : Option TickConfig) : Except ε α × Option TickConfig :=
  let originalConfig := st
  let stepResult := fn (some cfg)
  (stepResult.1, originalConfig)

/-! ## Proof infrastructure -/

theorem str_append_assoc (a b c : String) : a ++ b ++ c = a ++ (b ++ c) := by
  apply congrArg String.mk
  show (a.data ++ b.data) ++ c.data = a.data ++ (b.data ++ c.data)
  exact List.append_assoc _ _ _

/-- Projecting the request list out of an if-expression whose branches
issue the same requests. -/
theorem snd_if_same {α β : Type} (c : Prop) [Decidable c] (x y : α) (l : List β) :
    (if c then (x, l) else (y, l)).2 = l := by
  by_cases h : c <;> simp [h]

/-- The URL every request helper produces for a given active
configuration and relative path. -/
def apiUrl (c : TickConfig) (path : String) : String :=
  BASE_URL ++ "/" ++ c.subscriptionId ++ "/api/" ++ API_VERSION ++ "/" ++ path

theorem createUrl_some (c : TickConfig) (path : String) :
    createUrl (some c) path = .ok (apiUrl c path) := rfl

/-- The header list for GET/DELETE requests. -/
def authHeaders (c : TickConfig) : List (String × String) :=
  [("Authorization", "Token token=" ++ c.apiToken), ("User-Agent", c.userAgent)]

/-- The header list for POST/PUT requests. -/
def authHeadersCT (c : TickConfig) : List (String × String) :=
  [("Authorization", "Token token=" ++ c.apiToken), ("User-Agent", c.userAgent),
    ("Content-Type", "application/json; charset=utf-8")]

theorem createHeaders_some_false (c : TickConfig) :
    createHeaders (some c) false = .ok (authHeaders c) := rfl

theorem createHeaders_some_true (c : TickConfig) :
    createHeaders (some c) true = .ok (authHeadersCT c) := rfl

/-- `Prod.snd` distributes over an if-expression. -/
theorem snd_ite {α β : Type} (c : Prop) [Decidable c] (p q : α × β) :
    (if c then p else q).2 = if c then p.2 else q.2 := by
  by_cases h : c <;> simp [h]

theorem getUsers_requests (c : TickConfig) (tr : Transport) :
    (getUsers (some c) tr).2 = [⟨apiUrl c "users.json", "GET", authHeaders c, none⟩] := by
  simp [getUsers, createUrl_some, createHeaders_some_false, snd_if_same]

theorem getDeletedUsers_requests (c : TickConfig) (tr : Transport) :
    (getDeletedUsers (some c) tr).2 =
      [⟨apiUrl c "users/deleted.json", "GET", authHeaders c, none⟩] := by
  simp [getDeletedUsers, createUrl_some, createHeaders_some_false, snd_ite]

theorem createUser_requests (c : TickConfig) (p : CreateUserParams) (tr : Transport) :
    (createUser (some c) p tr).2 =
      [⟨apiUrl c "users.json", "POST", authHeadersCT c,
        some (jsonStringify (.obj [("user", p.toJson)]))⟩] := by
  simp [createUser, createUrl_some, createHeaders_some_true, snd_ite]

theorem getClients_requests (c : TickConfig) (tr : Transport) :
    (getClients (some c) tr).2 = [⟨apiUrl c "clients.json", "GET", authHeaders c, none⟩] := by
  simp [getClients, createUrl_some, createHeaders_some_false, snd_ite]

theorem getAllClients_requests (c : TickConfig) (tr : Transport) :
    (getAllClients (some c) tr).2 =
      [⟨apiUrl c "clients/all.json", "GET", authHeaders c, none⟩] := by
  simp [getAllClients, createUrl_some, createHeaders_some_false, snd_ite]

theorem getClient_requests (c : TickConfig) (id : Int) (tr : Transport) :
    (getClient (some c) id tr).2 =
      [⟨apiUrl c ("clients/" ++ toString id ++ ".json"), "GET", authHeaders c, none⟩] := by
  simp [getClient, createUrl_some, createHeaders_some_false, snd_ite]

theorem createClient_requests (c : TickConfig) (p : CreateClientParams) (tr : Transport) :
    (createClient (some c) p tr).2 =
      [⟨apiUrl c "clients.json", "POST", authHeadersCT c,
        some (jsonStringify p.toJson)⟩] := by
  simp [createClient, createUrl_some, createHeaders_some_true, snd_ite]

theorem updateClient_requests (c : TickConfig) (id : Int) (p : CreateClientParams)
    (tr : Transport) :
    (updateClient (some c) id p tr).2 =
      [⟨apiUrl c ("clients/" ++ toString id ++ ".json"), "PUT", authHeadersCT c,
        some (jsonStringify p.toJson)⟩] := by
  simp [updateClient, createUrl_some, createHeaders_some_true, snd_ite]

theorem deleteClient_requests (c : TickConfig) (id : Int) (tr : Transport) :
    (deleteClient (some c) id tr).2 =
      [⟨apiUrl c ("clients/" ++ toString id ++ ".json"), "DELETE", authHeaders c, none⟩] := by
  simp [deleteClient, createUrl_some, createHeaders_some_false, snd_ite]

theorem getProjects_requests (c : TickConfig) (pg : GetProjectsParams) (tr : Transport) :
    (getProjects (some c) pg tr).2 =
      [⟨apiUrl c (if !(projectsQueryString pg == "") then
          "projects.json?" ++ projectsQueryString pg else "projects.json"),
        "GET", authHeaders c, none⟩] := by
  simp [getProjects, createUrl_some, createHeaders_some_false, snd_ite]

theorem getClosedProjects_requests (c : TickConfig) (pg : GetProjectsParams)
    (tr : Transport) :
    (getClosedProjects (some c) pg tr).2 =
      [⟨apiUrl c (if !(projectsQueryString pg == "") then
          "projects/closed.json?" ++ projectsQueryString pg else "projects/closed.json"),
        "GET", authHeaders c, none⟩] := by
  simp [getClosedProjects, createUrl_some, createHeaders_some_false, snd_ite]

theorem getProject_requests (c : TickConfig) (id : Int) (tr : Transport) :
    (getProject (some c) id tr).2 =
      [⟨apiUrl c ("projects/" ++ toString id ++ ".json"), "GET", authHeaders c, none⟩] := by
  simp [getProject, createUrl_some, createHeaders_some_false, snd_ite]

theorem createProject_requests (c : TickConfig) (p : CreateProjectParams) (tr : Transport) :
    (createProject (some c) p tr).2 =
      [⟨apiUrl c "projects.json", "POST", authHeadersCT c,
        some (jsonStringify (.obj [("project", p.toJson)]))⟩] := by
  simp [createProject, createUrl_some, createHeaders_some_true, snd_ite]

theorem updateProject_requests (c : TickConfig) (id : Int) (p : UpdateProjectParams)
    (tr : Transport) :
    (updateProject (some c) id p tr).2 =
      [⟨apiUrl c ("projects/" ++ toString id ++ ".json"), "PUT", authHeadersCT c,
        some (jsonStringify (.obj [("project", p.toJson)]))⟩] := by
  simp [updateProject, createUrl_some, createHeaders_some_true, snd_ite]

theorem deleteProject_requests (c : TickConfig) (id : Int) (tr : Transport) :
    (deleteProject (some c) id tr).2 =
      [⟨apiUrl c ("projects/" ++ toString id ++ ".json"), "DELETE", authHeaders c, none⟩] := by
  simp [deleteProject, createUrl_some, createHeaders_some_false, snd_ite]

theorem getProjectTasks_requests (c : TickConfig) (pid : Int) (tr : Transport) :
    (getProjectTasks (some c) pid tr).2 =
      [⟨apiUrl c ("projects/" ++ toString pid ++ "/tasks.json"), "GET",
        authHeaders c, none⟩] := by
  simp [getProjectTasks, createUrl_some, createHeaders_some_false, snd_ite]

theorem getTasks_requests (c : TickConfig) (tr : Transport) :
    (getTasks (some c) tr).2 = [⟨apiUrl c "tasks.json", "GET", authHeaders c, none⟩] := by
  simp [getTasks, createUrl_some, createHeaders_some_false, snd_ite]

theorem getProjectClosedTasks_requests (c : TickConfig) (pid : Int) (tr : Transport) :
    (getProjectClosedTasks (some c) pid tr).2 =
      [⟨apiUrl c ("projects/" ++ toString pid ++ "/tasks/closed.json"), "GET",
        authHeaders c, none⟩] := by
  simp [getProjectClosedTasks, createUrl_some, createHeaders_some_false, snd_ite]

theorem getClosedTasks_requests (c : TickConfig) (tr : Transport) :
    (getClosedTasks (some c) tr).2 =
      [⟨apiUrl c "tasks/closed.json", "GET", authHeaders c, none⟩] := by
  simp [getClosedTasks, createUrl_some, createHeaders_some_false, snd_ite]

theorem getTask_requests (c : TickConfig) (id : String) (tr : Transport) :
    (getTask (some c) id tr).2 =
      [⟨apiUrl c ("tasks/" ++ id ++ ".json"), "GET", authHeaders c, none⟩] := by
  simp [getTask, createUrl_some, createHeaders_some_false, snd_ite]

theorem createTask_requests (c : TickConfig) (p : CreateTaskParams) (tr : Transport) :
    (createTask (some c) p tr).2 =
      [⟨apiUrl c "tasks.json", "POST", authHeadersCT c, some (jsonStringify p.toJson)⟩] := by
  simp [createTask, createUrl_some, createHeaders_some_true, snd_ite]

theorem updateTask_requests (c : TickConfig) (id : String) (p : UpdateTaskParams)
    (tr : Transport) :
    (updateTask (some c) id p tr).2 =
      [⟨apiUrl c ("tasks/" ++ id ++ ".json"), "PUT", authHeadersCT c,
        some (jsonStringify p.toJson)⟩] := by
  simp [updateTask, createUrl_some, createHeaders_some_true, snd_ite]

theorem deleteTask_requests (c : TickConfig) (id : String) (tr : Transport) :
    (deleteTask (some c) id tr).2 =
      [⟨apiUrl c ("tasks/" ++ id ++ ".json"), "DELETE", authHeaders c, none⟩] := by
  simp [deleteTask, createUrl_some, createHeaders_some_false, snd_ite]

theorem getEntries_requests (c : TickConfig) (p : GetEntriesParams) (tr : Transport)
    (h : entriesParamsMissing p = false) :
    (getEntries (some c) p tr).2 =
      [⟨apiUrl c ("entries.json?" ++ serializeQuery p.queryPairs), "GET",
        authHeaders c, none⟩] := by
  simp [getEntries, h, createUrl_some, createHeaders_some_false, snd_ite]

theorem getUserEntries_requests (c : TickConfig) (uid : Int) (p : GetEntriesParams)
    (tr : Transport) (h : entriesParamsMissing p = false) :
    (getUserEntries (some c) uid p tr).2 =
      [⟨apiUrl c ("users/" ++ toString uid ++ "/entries.json?"
          ++ serializeQuery p.queryPairs), "GET", authHeaders c, none⟩] := by
  simp [getUserEntries, h, createUrl_some, createHeaders_some_false, snd_ite]

theorem getProjectEntries_requests (c : TickConfig) (pid : Int) (p : GetEntriesParams)
    (tr : Transport) (h : entriesParamsMissing p = false) :
    (getProjectEntries (some c) pid p tr).2 =
      [⟨apiUrl c ("projects/" ++ toString pid ++ "/entries.json?"
          ++ serializeQuery p.queryPairs), "GET", authHeaders c, none⟩] := by
  simp [getProjectEntries, h, createUrl_some, createHeaders_some_false, snd_ite]

theorem getTaskEntries_requests (c : TickConfig) (tid : Int) (p : GetEntriesParams)
    (tr : Transport) (h : entriesParamsMissing p = false) :
    (getTaskEntries (some c) tid p tr).2 =
      [⟨apiUrl c ("tasks/" ++ toString tid ++ "/entries.json?"
          ++ serializeQuery p.queryPairs), "GET", authHeaders c, none⟩] := by
  simp [getTaskEntries, h, createUrl_some, createHeaders_some_false, snd_ite]

theorem getEntry_requests (c : TickConfig) (id : String) (tr : Transport) :
    (getEntry (some c) id tr).2 =
      [⟨apiUrl c ("entries/" ++ id ++ ".json"), "GET", authHeaders c, none⟩] := by
  simp [getEntry, createUrl_some, createHeaders_some_false, snd_ite]

theorem createEntry_requests (c : TickConfig) (p : CreateEntryParams) (tr : Transport) :
    (createEntry (some c) p tr).2 =
      [⟨apiUrl c "entries.json", "POST", authHeadersCT c,
        some (jsonStringify p.toJson)⟩] := by
  simp [createEntry, createUrl_some, createHeaders_some_true, snd_ite]

theorem updateEntry_requests (c : TickConfig) (id : String) (p : UpdateEntryParams)
    (tr : Transport) :
    (updateEntry (some c) id p tr).2 =
      [⟨apiUrl c ("entries/" ++ id ++ ".json"), "PUT", authHeadersCT c,
        some (jsonStringify p.toJson)⟩] := by
  simp [updateEntry, createUrl_some, createHeaders_some_true, snd_ite]

theorem deleteEntry_requests (c : TickConfig) (id : String) (tr : Transport) :
    (deleteEntry (some c) id tr).2 =
      [⟨apiUrl c ("entries/" ++ id ++ ".json"), "DELETE", authHeaders c, none⟩] := by
  simp [deleteEntry, createUrl_some, createHeaders_some_false, snd_ite]

/-- A request carries the JSON Content-Type header exactly when its
verb is POST or PUT. -/
def ctConsistent (r : FetchArgs) : Bool :=
  (r.headers.any fun kv => kv.1 == "Content-Type")
    == (r.method == "POST" || r.method == "PUT")

theorem getUsers_ct (gc : Option TickConfig) (tr : Transport) :
    ((getUsers gc tr).2.all ctConsistent) = true := by
  cases gc with
  | none => rfl
  | some c => rw [getUsers_requests]; rfl

theorem getDeletedUsers_ct (gc : Option TickConfig) (tr : Transport) :
    ((getDeletedUsers gc tr).2.all ctConsistent) = true := by
  cases gc with
  | none => rfl
  | some c => rw [getDeletedUsers_requests]; rfl

theorem createUser_ct (gc : Option TickConfig) (p : CreateUserParams) (tr : Transport) :
    ((createUser gc p tr).2.all ctConsistent) = true := by
  cases gc with
  | none => rfl
  | some c => rw [createUser_requests]; rfl

theorem getClients_ct (gc : Option TickConfig) (tr : Transport) :
    ((getClients gc tr).2.all ctConsistent) = true := by
  cases gc with
  | none => rfl
  | some c => rw [getClients_requests]; rfl

theorem getAllClients_ct (gc : Option TickConfig) (tr : Transport) :
    ((getAllClients gc tr).2.all ctConsistent) = true := by
  cases gc with
  | none => rfl
  | some c => rw [getAllClients_requests]; rfl

theorem getClient_ct (gc : Option TickConfig) (id : Int) (tr : Transport) :
    ((getClient gc id tr).2.all ctConsistent) = true := by
  cases gc with
  | none => rfl
  | some c => rw [getClient_requests]; rfl

theorem createClient_ct (gc : Option TickConfig) (p : CreateClientParams) (tr : Transport) :
    ((createClient gc p tr).2.all ctConsistent) = true := by
  cases gc with
  | none => rfl
  | some c => rw [createClient_requests]; rfl

theorem updateClient_ct (gc : Option TickConfig) (id : Int) (p : CreateClientParams)
    (tr : Transport) : ((updateClient gc id p tr).2.all ctConsistent) = true := by
  cases gc with
  | none => rfl
  | some c => rw [updateClient_requests]; rfl

theorem deleteClient_ct (gc : Option TickConfig) (id : Int) (tr : Transport) :
    ((deleteClient gc id tr).2.all ctConsistent) = true := by
  cases gc with
  | none => rfl
  | some c => rw [deleteClient_requests]; rfl

theorem getProjects_ct (gc : Option TickConfig) (pg : GetProjectsParams) (tr : Transport) :
    ((getProjects gc pg tr).2.all ctConsistent) = true := by
  cases gc with
  | none => rfl
  | some c =>
    rw [getProjects_requests]
    rfl

theorem getClosedProjects_ct (gc : Option TickConfig) (pg : GetProjectsParams)
    (tr : Transport) : ((getClosedProjects gc pg tr).2.all ctConsistent) = true := by
  cases gc with
  | none => rfl
  | some c =>
    rw [getClosedProjects_requests]
    rfl

theorem getProject_ct (gc : Option TickConfig) (id : Int) (tr : Transport) :
    ((getProject gc id tr).2.all ctConsistent) = true := by
  cases gc with
  | none => rfl
  | some c => rw [getProject_requests]; rfl

theorem createProject_ct (gc : Option TickConfig) (p : CreateProjectParams)
    (tr : Transport) : ((createProject gc p tr).2.all ctConsistent) = true := by
  cases gc with
  | none => rfl
  | some c => rw [createProject_requests]; rfl

theorem updateProject_ct (gc : Option TickConfig) (id : Int) (p : UpdateProjectParams)
    (tr : Transport) : ((updateProject gc id p tr).2.all ctConsistent) = true := by
  cases gc with
  | none => rfl
  | some c => rw [updateProject_requests]; rfl

theorem deleteProject_ct (gc : Option TickConfig) (id : Int) (tr : Transport) :
    ((deleteProject gc id tr).2.all ctConsistent) = true := by
  cases gc with
  | none => rfl
  | some c => rw [deleteProject_requests]; rfl

theorem getProjectTasks_ct (gc : Option TickConfig) (pid : Int) (tr : Transport) :
    ((getProjectTasks gc pid tr).2.all ctConsistent) = true := by
  cases gc with
  | none => rfl
  | some c => rw [getProjectTasks_requests]; rfl

theorem getTasks_ct (gc : Option TickConfig) (tr : Transport) :
    ((getTasks gc tr).2.all ctConsistent) = true := by
  cases gc with
  | none => rfl
  | some c => rw [getTasks_requests]; rfl

theorem getProjectClosedTasks_ct (gc : Option TickConfig) (pid : Int) (tr : Transport) :
    ((getProjectClosedTasks gc pid tr).2.all ctConsistent) = true := by
  cases gc with
  | none => rfl
  | some c => rw [getProjectClosedTasks_requests]; rfl

theorem getClosedTasks_ct (gc : Option TickConfig) (tr : Transport) :
    ((getClosedTasks gc tr).2.all ctConsistent) = true := by
  cases gc with
  | none => rfl
  | some c => rw [getClosedTasks_requests]; rfl

theorem getTask_ct (gc : Option TickConfig) (id : String) (tr : Transport) :
    ((getTask gc id tr).2.all ctConsistent) = true := by
  cases gc with
  | none => rfl
  | some c => rw [getTask_requests]; rfl

theorem createTask_ct (gc : Option TickConfig) (p : CreateTaskParams) (tr : Transport) :
    ((createTask gc p tr).2.all ctConsistent) = true := by
  cases gc with
  | none => rfl
  | some c => rw [createTask_requests]; rfl

theorem updateTask_ct (gc : Option TickConfig) (id : String) (p : UpdateTaskParams)
    (tr : Transport) : ((updateTask gc id p tr).2.all ctConsistent) = true := by
  cases gc with
  | none => rfl
  | some c => rw [updateTask_requests]; rfl

theorem deleteTask_ct (gc : Option TickConfig) (id : String) (tr : Transport) :
    ((deleteTask gc id tr).2.all ctConsistent) = true := by
  cases gc with
  | none => rfl
  | some c => rw [deleteTask_requests]; rfl

theorem getEntries_ct (gc : Option TickConfig) (p : GetEntriesParams) (tr : Transport) :
    ((getEntries gc p tr).2.all ctConsistent) = true := by
  cases h : entriesParamsMissing p with
  | true => simp [getEntries, h]
  | false =>
    cases gc with
    | none => simp [getEntries, h, createUrl]
    | some c => rw [getEntries_requests _ _ _ h]; rfl

theorem getUserEntries_ct (gc : Option TickConfig) (uid : Int) (p : GetEntriesParams)
    (tr : Transport) : ((getUserEntries gc uid p tr).2.all ctConsistent) = true := by
  cases h : entriesParamsMissing p with
  | true => simp [getUserEntries, h]
  | false =>
    cases gc with
    | none => simp [getUserEntries, h, createUrl]
    | some c => rw [getUserEntries_requests _ _ _ _ h]; rfl

theorem getProjectEntries_ct (gc : Option TickConfig) (pid : Int) (p : GetEntriesParams)
    (tr : Transport) : ((getProjectEntries gc pid p tr).2.all ctConsistent) = true := by
  cases h : entriesParamsMissing p with
  | true => simp [getProjectEntries, h]
  | false =>
    cases gc with
    | none => simp [getProjectEntries, h, createUrl]
    | some c => rw [getProjectEntries_requests _ _ _ _ h]; rfl

theorem getTaskEntries_ct (gc : Option TickConfig) (tid : Int) (p : GetEntriesParams)
    (tr : Transport) : ((getTaskEntries gc tid p tr).2.all ctConsistent) = true := by
  cases h : entriesParamsMissing p with
  | true => simp [getTaskEntries, h]
  | false =>
    cases gc with
    | none => simp [getTaskEntries, h, createUrl]
    | some c => rw [getTaskEntries_requests _ _ _ _ h]; rfl

theorem getEntry_ct (gc : Option TickConfig) (id : String) (tr : Transport) :
    ((getEntry gc id tr).2.all ctConsistent) = true := by
  cases gc with
  | none => rfl
  | some c => rw [getEntry_requests]; rfl

theorem createEntry_ct (gc : Option TickConfig) (p : CreateEntryParams) (tr : Transport) :
    ((createEntry gc p tr).2.all ctConsistent) = true := by
  cases gc with
  | none => rfl
  | some c => rw [createEntry_requests]; rfl

theorem updateEntry_ct (gc : Option TickConfig) (id : String) (p : UpdateEntryParams)
    (tr : Transport) : ((updateEntry gc id p tr).2.all ctConsistent) = true := by
  cases gc with
  | none => rfl
  | some c => rw [updateEntry_requests]; rfl

theorem deleteEntry_ct (gc : Option TickConfig) (id : String) (tr : Transport) :
    ((deleteEntry gc id tr).2.all ctConsistent) = true := by
  cases gc with
  | none => rfl
  | some c => rw [deleteEntry_requests]; rfl

/-! ## Claim theorems -/

/-- C1: the façade's invocation wrapper `withConfig` captures the
current process-wide active configuration, sets the active
configuration to the instance's own configuration, invokes the wrapped
asynchronous operation, and on settle — success or failure alike, via
the try/finally discipline — restores the previously captured
configuration (including the value `null`, i.e. `none`) before
propagating the operation's original result or failure unchanged: the
returned outcome is exactly the wrapped operation's outcome evaluated
under the instance's configuration (so an `Except.ok` stays the same
`Except.ok` and an `Except.error` stays the same `Except.error`), and
the final state of the global cell is exactly the captured initial
state, whatever the wrapped operation returned or left behind. Every
façade method is `withConfig` applied to the corresponding resource
function. -/
theorem withConfig_restores_and_propagates {ε α : Type} (cfg : TickConfig)
    (fn : Option TickConfig → Except ε α × Option TickConfig)
    (st : Option TickConfig) :
    (withConfig cfg fn st).1 = (fn (some cfg)).1 ∧
    (withConfig cfg fn st).2 = st :=
  ⟨rfl, rfl⟩

/-- C5: for every active configuration and every relative path,
`createUrl` returns exactly the concatenation
`"https://www.tickspot.com/" ++ subscriptionId ++ "/api/v2/" ++ path`,
and with no active configuration it fails with the configuration
error instead of returning a URL. -/
theorem createUrl_concatenation (cfg : TickConfig) (path : String) :
    createUrl (some cfg) path =
      .ok ("https://www.tickspot.com/" ++ cfg.subscriptionId ++ "/api/v2/" ++ path) ∧
    createUrl none path =
      .error "Global configuration is not set. Please call setGlobalConfig() first." := by
  constructor
  · rw [createUrl_some]
    apply congrArg Except.ok
    show BASE_URL ++ "/" ++ cfg.subscriptionId ++ "/api/" ++ API_VERSION ++ "/" ++ path = _
    rw [show BASE_URL ++ "/" = "https://www.tickspot.com/" from rfl,
      str_append_assoc ("https://www.tickspot.com/" ++ cfg.subscriptionId) "/api/" API_VERSION,
      show "/api/" ++ API_VERSION = "/api/v2" from rfl,
      str_append_assoc ("https://www.tickspot.com/" ++ cfg.subscriptionId) "/api/v2" "/",
      show ("/api/v2" ++ "/" : String) = "/api/v2/" from rfl]
  · rfl

/-- C6: for every active configuration `createHeaders` produces an
Authorization header of exactly the form `Token token=<apiToken>` and a
User-Agent header equal to the configuration's `userAgent`; it includes
the JSON Content-Type header exactly when requested (call sites written
`createHeaders()` pass `true`); with no active configuration it fails
with the configuration error; and across all thirty-one endpoint
operations every issued request carries the Content-Type header exactly
when its verb is POST or PUT (so every GET and DELETE omits it). -/
theorem createHeaders_contract (cfg : TickConfig) (gc : Option TickConfig)
    (b : Bool) (tr : Transport) (id pid uid tid : Int) (sid : String)
    (pu : CreateUserParams) (pc : CreateClientParams) (pp : CreateProjectParams)
    (pup : UpdateProjectParams) (pg : GetProjectsParams) (pt : CreateTaskParams)
    (put : UpdateTaskParams) (pe : GetEntriesParams) (pce : CreateEntryParams)
    (pue : UpdateEntryParams) :
    createHeaders (some cfg) true =
      .ok [("Authorization", "Token token=" ++ cfg.apiToken),
        ("User-Agent", cfg.userAgent),
        ("Content-Type", "application/json; charset=utf-8")] ∧
    createHeaders (some cfg) false =
      .ok [("Authorization", "Token token=" ++ cfg.apiToken),
        ("User-Agent", cfg.userAgent)] ∧
    createHeaders none b =
      .error "Global configuration is not set. Please call setGlobalConfig() first." ∧
    ((getUsers gc tr).2.all ctConsistent) = true ∧
    ((getDeletedUsers gc tr).2.all ctConsistent) = true ∧
    ((createUser gc pu tr).2.all ctConsistent) = true ∧
    ((getClients gc tr).2.all ctConsistent) = true ∧
    ((getAllClients gc tr).2.all ctConsistent) = true ∧
    ((getClient gc id tr).2.all ctConsistent) = true ∧
    ((createClient gc pc tr).2.all ctConsistent) = true ∧
    ((updateClient gc id pc tr).2.all ctConsistent) = true ∧
    ((deleteClient gc id tr).2.all ctConsistent) = true ∧
    ((getProjects gc pg tr).2.all ctConsistent) = true ∧
    ((getClosedProjects gc pg tr).2.all ctConsistent) = true ∧
    ((getProject gc id tr).2.all ctConsistent) = true ∧
    ((createProject gc pp tr).2.all ctConsistent) = true ∧
    ((updateProject gc id pup tr).2.all ctConsistent) = true ∧
    ((deleteProject gc id tr).2.all ctConsistent) = true ∧
    ((getProjectTasks gc pid tr).2.all ctConsistent) = true ∧
    ((getTasks gc tr).2.all ctConsistent) = true ∧
    ((getProjectClosedTasks gc pid tr).2.all ctConsistent) = true ∧
    ((getClosedTasks gc tr).2.all ctConsistent) = true ∧
    ((getTask gc sid tr).2.all ctConsistent) = true ∧
    ((createTask gc pt tr).2.all ctConsistent) = true ∧
    ((updateTask gc sid put tr).2.all ctConsistent) = true ∧
    ((deleteTask gc sid tr).2.all ctConsistent) = true ∧
    ((getEntries gc pe tr).2.all ctConsistent) = true ∧
    ((getUserEntries gc uid pe tr).2.all ctConsistent) = true ∧
    ((getProjectEntries gc pid pe tr).2.all ctConsistent) = true ∧
    ((getTaskEntries gc tid pe tr).2.all ctConsistent) = true ∧
    ((getEntry gc sid tr).2.all ctConsistent) = true ∧
    ((createEntry gc pce tr).2.all ctConsistent) = true ∧
    ((updateEntry gc sid pue tr).2.all ctConsistent) = true ∧
    ((deleteEntry gc sid tr).2.all ctConsistent) = true :=
  ⟨rfl, rfl, rfl,
    getUsers_ct gc tr, getDeletedUsers_ct gc tr, createUser_ct gc pu tr,
    getClients_ct gc tr, getAllClients_ct gc tr, getClient_ct gc id tr,
    createClient_ct gc pc tr, updateClient_ct gc id pc tr, deleteClient_ct gc id tr,
    getProjects_ct gc pg tr, getClosedProjects_ct gc pg tr, getProject_ct gc id tr,
    createProject_ct gc pp tr, updateProject_ct gc id pup tr, deleteProject_ct gc id tr,
    getProjectTasks_ct gc pid tr, getTasks_ct gc tr, getProjectClosedTasks_ct gc pid tr,
    getClosedTasks_ct gc tr, getTask_ct gc sid tr, createTask_ct gc pt tr,
    updateTask_ct gc sid put tr, deleteTask_ct gc sid tr, getEntries_ct gc pe tr,
    getUserEntries_ct gc uid pe tr, getProjectEntries_ct gc pid pe tr,
    getTaskEntries_ct gc tid pe tr, getEntry_ct gc sid tr, createEntry_ct gc pce tr,
    updateEntry_ct gc sid pue tr, deleteEntry_ct gc sid tr⟩

/-- C8: for every create operation the POST body is the
`JSON.stringify` serialization of the caller's parameter object,
wrapped under the key `user` for user creation and `project` for
project creation, and sent unwrapped for client, task and entry
creation. -/
theorem createBody_wrapping (c : TickConfig) (tr : Transport)
    (pu : CreateUserParams) (pp : CreateProjectParams) (pc : CreateClientParams)
    (pt : CreateTaskParams) (pe : CreateEntryParams) :
    (createUser (some c) pu tr).2.map FetchArgs.body
        = [some (jsonStringify (Json.obj [("user", pu.toJson)]))] ∧
    (createProject (some c) pp tr).2.map FetchArgs.body
        = [some (jsonStringify (Json.obj [("project", pp.toJson)]))] ∧
    (createClient (some c) pc tr).2.map FetchArgs.body
        = [some (jsonStringify pc.toJson)] ∧
    (createTask (some c) pt tr).2.map FetchArgs.body
        = [some (jsonStringify pt.toJson)] ∧
    (createEntry (some c) pe tr).2.map FetchArgs.body
        = [some (jsonStringify pe.toJson)] := by
  refine ⟨?_, ?_, ?_, ?_, ?_⟩
  · rw [createUser_requests]; rfl
  · rw [createProject_requests]; rfl
  · rw [createClient_requests]; rfl
  · rw [createTask_requests]; rfl
  · rw [createEntry_requests]; rfl

/-- A field is supplied with a usable value: present and non-empty. -/
def suppliedNonEmpty (o : Option String) : Prop := ∃ s, o = some s ∧ s ≠ ""

theorem truthyStr_iff (o : Option String) :
    truthyStr o = true ↔ suppliedNonEmpty o := by
  cases o with
  | none => simp [truthyStr, suppliedNonEmpty]
  | some s => simp [truthyStr, suppliedNonEmpty]

theorem entriesParamsMissing_iff (p : GetEntriesParams) :
    entriesParamsMissing p = true ↔
      ¬ ((suppliedNonEmpty p.start_date ∧ suppliedNonEmpty p.end_date)
          ∨ suppliedNonEmpty p.updated_at) := by
  rw [← truthyStr_iff, ← truthyStr_iff, ← truthyStr_iff]
  cases hsd : truthyStr p.start_date <;> cases hed : truthyStr p.end_date
    <;> cases hua : truthyStr p.updated_at
    <;> simp [entriesParamsMissing, hsd, hed, hua]

/-- C2: for every parameter object passed to any of the four
entries-listing operations, if neither (`start_date` and `end_date`
both supplied with non-empty values) nor `updated_at` is so supplied,
the operation fails with the validation error whose message is exactly
"Either start_date and end_date OR updated_at must be provided" before
any transport call is made (the request list is empty, for every
transport); if `start_date` and `end_date` are both supplied, or
`updated_at` alone is supplied, the transport call proceeds (exactly
one request is issued). -/
theorem entriesListing_validation_gate (gc : TickConfig) (tr : Transport)
    (p : GetEntriesParams) (uid pid tid : Int) :
    entriesValidationMsg = "Either start_date and end_date OR updated_at must be provided" ∧
    (¬ ((suppliedNonEmpty p.start_date ∧ suppliedNonEmpty p.end_date)
        ∨ suppliedNonEmpty p.updated_at) →
      getEntries (some gc) p tr = (.error entriesValidationMsg, []) ∧
      getUserEntries (some gc) uid p tr = (.error entriesValidationMsg, []) ∧
      getProjectEntries (some gc) pid p tr = (.error entriesValidationMsg, []) ∧
      getTaskEntries (some gc) tid p tr = (.error entriesValidationMsg, [])) ∧
    (((suppliedNonEmpty p.start_date ∧ suppliedNonEmpty p.end_date)
        ∨ suppliedNonEmpty p.updated_at) →
      (getEntries (some gc) p tr).2.length = 1 ∧
      (getUserEntries (some gc) uid p tr).2.length = 1 ∧
      (getProjectEntries (some gc) pid p tr).2.length = 1 ∧
      (getTaskEntries (some gc) tid p tr).2.length = 1) := by
  refine ⟨rfl, ?_, ?_⟩
  · intro h
    have hm : entriesParamsMissing p = true := (entriesParamsMissing_iff p).mpr h
    exact ⟨by simp [getEntries, hm], by simp [getUserEntries, hm],
      by simp [getProjectEntries, hm], by simp [getTaskEntries, hm]⟩
  · intro h
    have hm : entriesParamsMissing p = false := by
      cases hmm : entriesParamsMissing p
      · rfl
      · exact absurd h ((entriesParamsMissing_iff p).mp hmm)
    exact ⟨by rw [getEntries_requests _ _ _ hm]; rfl,
      by rw [getUserEntries_requests _ _ _ _ hm]; rfl,
      by rw [getProjectEntries_requests _ _ _ _ hm]; rfl,
      by rw [getTaskEntries_requests _ _ _ _ hm]; rfl⟩

/-- Witness for C2: the empty parameter object is rejected with the
validation message and no transport call, while `updated_at` alone
proceeds to exactly one transport call. -/
theorem entriesListing_validation_gate_witness :
    getEntries (some ⟨"acme", "tok", "App/1.0"⟩)
        ⟨none, none, none, none, none, none, none, none⟩
        (fun _ => ⟨200, "OK", Json.null⟩)
      = (.error entriesValidationMsg, []) ∧
    (getEntries (some ⟨"acme", "tok", "App/1.0"⟩)
        ⟨none, none, some "2024-01-01", none, none, none, none, none⟩
        (fun _ => ⟨200, "OK", Json.null⟩)).2.length = 1 := by
  constructor
  · exact ((entriesListing_validation_gate ⟨"acme", "tok", "App/1.0"⟩
      (fun _ => ⟨200, "OK", Json.null⟩)
      ⟨none, none, none, none, none, none, none, none⟩ 1 1 1).2.1
      (by simp [suppliedNonEmpty])).1
  · exact ((entriesListing_validation_gate ⟨"acme", "tok", "App/1.0"⟩
      (fun _ => ⟨200, "OK", Json.null⟩)
      ⟨none, none, some "2024-01-01", none, none, none, none, none⟩ 1 1 1).2.2
      (Or.inr ⟨"2024-01-01", rfl, by decide⟩)).1

/-- C10: the entries-listing precondition tests JavaScript truthiness
rather than presence, so a supplied empty string counts as absent: with
`start_date` a non-empty string, `end_date` the empty string, and
`updated_at` absent or the empty string, all four listing operations
reject with the cross-field validation error even though every supplied
field is a defined string; symmetrically, `updated_at` supplied as the
empty string does not satisfy the precondition. -/
theorem entries_truthiness_precondition (gc : TickConfig) (tr : Transport)
    (s : String) (b bd : Option Bool) (pid tid uidf : Option Int)
    (uid pid2 tid2 : Int) (ua : Option String)
    (hs : s ≠ "") (hua : ua = none ∨ ua = some "")
    (p2 : GetEntriesParams) (h2 : p2.updated_at = some "")
    (h2b : truthyStr p2.start_date = false ∨ truthyStr p2.end_date = false) :
    getEntries (some gc) ⟨some s, some "", ua, b, pid, tid, uidf, bd⟩ tr
      = (.error entriesValidationMsg, []) ∧
    getUserEntries (some gc) uid ⟨some s, some "", ua, b, pid, tid, uidf, bd⟩ tr
      = (.error entriesValidationMsg, []) ∧
    getProjectEntries (some gc) pid2 ⟨some s, some "", ua, b, pid, tid, uidf, bd⟩ tr
      = (.error entriesValidationMsg, []) ∧
    getTaskEntries (some gc) tid2 ⟨some s, some "", ua, b, pid, tid, uidf, bd⟩ tr
      = (.error entriesValidationMsg, []) ∧
    getEntries (some gc) p2 tr = (.error entriesValidationMsg, []) := by
  have hm : entriesParamsMissing ⟨some s, some "", ua, b, pid, tid, uidf, bd⟩ = true := by
    rcases hua with h | h <;> subst h <;> simp [entriesParamsMissing, truthyStr]
  have hm2 : entriesParamsMissing p2 = true := by
    have hua2 : truthyStr p2.updated_at = false := by rw [h2]; rfl
    unfold entriesParamsMissing
    rw [hua2]
    rcases h2b with h | h <;> rw [h] <;> simp
  exact ⟨by simp [getEntries, hm], by simp [getUserEntries, hm],
    by simp [getProjectEntries, hm], by simp [getTaskEntries, hm],
    by simp [getEntries, hm2]⟩

/-- Witness for C10: `start_date = "2024-01-01"` with `end_date = ""`
is rejected, and `updated_at = ""` alone is rejected. -/
theorem entries_truthiness_precondition_witness :
    getEntries (some ⟨"acme", "tok", "App/1.0"⟩)
        ⟨some "2024-01-01", some "", none, none, none, none, none, none⟩
        (fun _ => ⟨200, "OK", Json.null⟩)
      = (.error entriesValidationMsg, []) ∧
    getEntries (some ⟨"acme", "tok", "App/1.0"⟩)
        ⟨none, none, some "", none, none, none, none, none⟩
        (fun _ => ⟨200, "OK", Json.null⟩)
      = (.error entriesValidationMsg, []) := by
  have h := entries_truthiness_precondition ⟨"acme", "tok", "App/1.0"⟩
    (fun _ => ⟨200, "OK", Json.null⟩) "2024-01-01" none none none none none
    1 1 1 none (by decide) (Or.inl rfl)
    ⟨none, none, some "", none, none, none, none, none⟩ rfl (Or.inl rfl)
  exact ⟨h.1, h.2.2.2.2⟩

theorem jsTrim_empty : jsTrim "" = "" := rfl

/-- C4: each of `subscriptionId`, `apiToken`, `userAgent` must be
present, of string type, and non-empty after trimming whitespace
(first conjunct characterizes the per-field test); all violated fields
are collected and reported together in one configuration error whose
message joins the fixed per-field message
"`<field>` is required and must be a non-empty string" for exactly the
violated fields (second and third conjuncts); a valid input is
accepted (fourth conjunct); and construction is deterministic in the
configuration value: two inputs with the same three fields produce the
same accept/reject outcome and the same error list (fifth conjunct). -/
theorem tickClient_constructor_validation (input : TickConfigInput) :
    (∀ v : JSVal, fieldInvalid v = false ↔ ∃ s, v = JSVal.str s ∧ jsTrim s ≠ "") ∧
    (∀ m : String, m ∈ validateConfigErrors input ↔
      ((m = "subscriptionId is required and must be a non-empty string" ∧
          fieldInvalid input.subscriptionId = true) ∨
        (m = "apiToken is required and must be a non-empty string" ∧
          fieldInvalid input.apiToken = true) ∨
        (m = "userAgent is required and must be a non-empty string" ∧
          fieldInvalid input.userAgent = true))) ∧
    (validateConfigErrors input ≠ [] →
      TickClient.make input =
        .error ("Invalid TickClient configuration: "
          ++ String.intercalate ", " (validateConfigErrors input))) ∧
    (validateConfigErrors input = [] →
      TickClient.make input = .ok ⟨⟨input.subscriptionId.asString,
        input.apiToken.asString, input.userAgent.asString⟩⟩) ∧
    (∀ j : TickConfigInput, j.subscriptionId = input.subscriptionId →
      j.apiToken = input.apiToken → j.userAgent = input.userAgent →
      TickClient.make j = TickClient.make input) := by
  refine ⟨?_, ?_, ?_, ?_, ?_⟩
  · intro v
    cases v with
    | str s =>
      simp only [fieldInvalid, JSVal.truthy, JSVal.typeof, JSVal.trimmed]
      constructor
      · intro h
        refine ⟨s, rfl, ?_⟩
        simp only [Bool.or_eq_false_iff] at h
        simpa using h.2
      · rintro ⟨t, ht, htrim⟩
        cases ht
        have hs : s ≠ "" := by
          intro he
          exact htrim (he ▸ jsTrim_empty)
        simp [hs, htrim]
    | undef => simp [fieldInvalid, JSVal.truthy]
    | null => simp [fieldInvalid, JSVal.truthy]
    | num n => simp [fieldInvalid, JSVal.typeof]
    | bool b => simp [fieldInvalid, JSVal.typeof]
  · intro m
    cases h1 : fieldInvalid input.subscriptionId
      <;> cases h2 : fieldInvalid input.apiToken
      <;> cases h3 : fieldInvalid input.userAgent
      <;> simp [validateConfigErrors, h1, h2, h3]
  · intro h
    have hp : 0 < (validateConfigErrors input).length := List.length_pos.mpr h
    simp [TickClient.make, hp]
  · intro h
    simp [TickClient.make, h]
  · intro j h1 h2 h3
    simp [TickClient.make, validateConfigErrors, h1, h2, h3]

/-- Witness for C4: an input violating all three fields is rejected
with the message joining all three per-field messages, and a valid
input is accepted. -/
theorem tickClient_constructor_validation_witness :
    TickClient.make ⟨.undef, .str "  ", .num 3, []⟩ =
      .error ("Invalid TickClient configuration: "
        ++ String.intercalate ", " (validateConfigErrors ⟨.undef, .str "  ", .num 3, []⟩)) ∧
    TickClient.make ⟨.str "acme", .str "tok", .str "App/1.0", []⟩ =
      .ok ⟨⟨"acme", "tok", "App/1.0"⟩⟩ :=
  ⟨(tickClient_constructor_validation ⟨.undef, .str "  ", .num 3, []⟩).2.2.1 (by decide),
    (tickClient_constructor_validation ⟨.str "acme", .str "tok", .str "App/1.0", []⟩).2.2.2.1
      (by decide)⟩

/-- C9: the façade stores a configuration value holding exactly the
three recognized fields (`TickConfig` has no others), copied out of the
input field by field; extra properties on the input are dropped: the
construction outcome is entirely independent of the `extra` properties,
and on success the stored configuration is exactly the triple of the
three recognized field values (so the stored value is a fresh
`TickConfig`, not the caller's input object). -/
theorem tickClient_stores_defensive_copy (input : TickConfigInput)
    (extras : List (String × JSVal)) (c : TickClient) :
    TickClient.make { input with extra := extras } = TickClient.make input ∧
    (TickClient.make input = .ok c →
      c.config = ⟨input.subscriptionId.asString, input.apiToken.asString,
        input.userAgent.asString⟩) := by
  constructor
  · simp [TickClient.make, validateConfigErrors]
  · intro h
    unfold TickClient.make at h
    by_cases hl : 0 < (validateConfigErrors input).length
    · simp [hl] at h
    · simp [hl] at h
      rw [← h]

/-- Witness for C9: extra properties do not change the construction
outcome, and the stored configuration is the bare field triple. -/
theorem tickClient_stores_defensive_copy_witness :
    TickClient.make ⟨.str "acme", .str "tok", .str "App/1.0", [("role", .str "admin")]⟩
        = TickClient.make ⟨.str "acme", .str "tok", .str "App/1.0", []⟩ ∧
    (⟨⟨"acme", "tok", "App/1.0"⟩⟩ : TickClient).config = ⟨"acme", "tok", "App/1.0"⟩ :=
  ⟨(tickClient_stores_defensive_copy ⟨.str "acme", .str "tok", .str "App/1.0", []⟩
      [("role", .str "admin")] ⟨⟨"acme", "tok", "App/1.0"⟩⟩).1,
    (tickClient_stores_defensive_copy ⟨.str "acme", .str "tok", .str "App/1.0", []⟩
      [] ⟨⟨"acme", "tok", "App/1.0"⟩⟩).2 rfl⟩

/-- C3 counterexample: the claim quantifies over every endpoint
operation, but `getClients` maps a 403 transport status to the generic
status-carrying failure "Failed to fetch clients: 403 Forbidden" — a
message that names no privilege (it does not contain "administrators")
— rather than to a privilege-naming forbidden error. -/
theorem status403_generic_counterexample :
    (getClients (some ⟨"acme", "tok", "App/1.0"⟩)
        (fun _ => ⟨403, "Forbidden", Json.null⟩)).1
      = .error "Failed to fetch clients: 403 Forbidden" ∧
    ¬ ("administrators".toList).IsInfix
        ("Failed to fetch clients: 403 Forbidden".toList) := by
  exact ⟨rfl, by decide⟩

/-- C3 amended: for all eleven privilege-checking operations
(`getDeletedUsers`, `createUser`, `createClient`, `updateClient`,
`deleteClient`, `createProject`, `updateProject`, `deleteProject`,
`createTask`, `updateTask`, `deleteTask`), status 403 yields the
forbidden error naming the required privilege, and every one of those
eleven messages contains "administrators"; status 406 on client
deletion or task deletion yields the fixed conflict message describing
the violated constraint; any other non-success status on the deletions
yields the generic failure carrying the numeric status code and the
transport's status text; a success status deletes cleanly. An
operation without a dedicated 403 branch (`getClients`) maps every
non-success status — 403 and 406 included — to its generic
status-carrying failure. -/
theorem statusMapping_amended (c : TickConfig) (id : Int) (tid : String)
    (status : Nat) (stext : String) (body : Json)
    (pu : CreateUserParams) (pc : CreateClientParams) (pp : CreateProjectParams)
    (pup : UpdateProjectParams) (pt : CreateTaskParams) (put : UpdateTaskParams) :
    (status = 403 →
      (getDeletedUsers (some c) (fun _ => ⟨status, stext, body⟩)).1
        = .error "Forbidden: Only administrators can access deleted users" ∧
      (createUser (some c) pu (fun _ => ⟨status, stext, body⟩)).1
        = .error "Forbidden: Only administrators can create users" ∧
      (createClient (some c) pc (fun _ => ⟨status, stext, body⟩)).1
        = .error "Forbidden: Only administrators can create clients" ∧
      (updateClient (some c) id pc (fun _ => ⟨status, stext, body⟩)).1
        = .error "Forbidden: Only administrators can update clients" ∧
      (deleteClient (some c) id (fun _ => ⟨status, stext, body⟩)).1
        = .error "Forbidden: Only administrators can delete clients" ∧
      (createProject (some c) pp (fun _ => ⟨status, stext, body⟩)).1
        = .error "Forbidden: Only administrators can create projects" ∧
      (updateProject (some c) id pup (fun _ => ⟨status, stext, body⟩)).1
        = .error "Forbidden: Only administrators can update projects" ∧
      (deleteProject (some c) id (fun _ => ⟨status, stext, body⟩)).1
        = .error "Forbidden: Only administrators can delete projects" ∧
      (createTask (some c) pt (fun _ => ⟨status, stext, body⟩)).1
        = .error "Failed to create task: Only administrators can create tasks" ∧
      (updateTask (some c) tid put (fun _ => ⟨status, stext, body⟩)).1
        = .error "Failed to update task: Only administrators can update tasks" ∧
      (deleteTask (some c) tid (fun _ => ⟨status, stext, body⟩)).1
        = .error "Failed to delete task: Only administrators can delete tasks") ∧
    (("administrators".toList).IsInfix
        ("Forbidden: Only administrators can access deleted users".toList) ∧
      ("administrators".toList).IsInfix
        ("Forbidden: Only administrators can create users".toList) ∧
      ("administrators".toList).IsInfix
        ("Forbidden: Only administrators can create clients".toList) ∧
      ("administrators".toList).IsInfix
        ("Forbidden: Only administrators can update clients".toList) ∧
      ("administrators".toList).IsInfix
        ("Forbidden: Only administrators can delete clients".toList) ∧
      ("administrators".toList).IsInfix
        ("Forbidden: Only administrators can create projects".toList) ∧
      ("administrators".toList).IsInfix
        ("Forbidden: Only administrators can update projects".toList) ∧
      ("administrators".toList).IsInfix
        ("Forbidden: Only administrators can delete projects".toList) ∧
      ("administrators".toList).IsInfix
        ("Failed to create task: Only administrators can create tasks".toList) ∧
      ("administrators".toList).IsInfix
        ("Failed to update task: Only administrators can update tasks".toList) ∧
      ("administrators".toList).IsInfix
        ("Failed to delete task: Only administrators can delete tasks".toList)) ∧
    (status = 406 →
      (deleteClient (some c) id (fun _ => ⟨status, stext, body⟩)).1
        = .error "Client cannot be deleted because it still has associated projects" ∧
      (deleteTask (some c) tid (fun _ => ⟨status, stext, body⟩)).1
        = .error "Failed to delete task: Only tasks without any entries can be deleted" ∧
      ("associated projects".toList).IsInfix
        ("Client cannot be deleted because it still has associated projects".toList) ∧
      ("entries".toList).IsInfix
        ("Failed to delete task: Only tasks without any entries can be deleted".toList)) ∧
    (¬ (200 ≤ status ∧ status ≤ 299) → status ≠ 403 → status ≠ 406 →
      (deleteClient (some c) id (fun _ => ⟨status, stext, body⟩)).1
        = .error ("Failed to delete client with ID " ++ toString id ++ ": "
          ++ toString status ++ " " ++ stext) ∧
      (deleteTask (some c) tid (fun _ => ⟨status, stext, body⟩)).1
        = .error ("Failed to delete task with ID " ++ tid ++ ": "
          ++ toString status ++ " " ++ stext)) ∧
    (¬ (200 ≤ status ∧ status ≤ 299) →
      (getClients (some c) (fun _ => ⟨status, stext, body⟩)).1
        = .error ("Failed to fetch clients: " ++ toString status ++ " " ++ stext)) ∧
    (200 ≤ status → status ≤ 299 →
      (deleteClient (some c) id (fun _ => ⟨status, stext, body⟩)).1 = .ok () ∧
      (deleteTask (some c) tid (fun _ => ⟨status, stext, body⟩)).1 = .ok ()) := by
  refine ⟨?_, by decide, ?_, ?_, ?_, ?_⟩
  · intro h
    subst h
    exact ⟨by simp [getDeletedUsers, createUrl_some, createHeaders_some_false],
      by simp [createUser, createUrl_some, createHeaders_some_true],
      by simp [createClient, createUrl_some, createHeaders_some_true],
      by simp [updateClient, createUrl_some, createHeaders_some_true],
      by simp [deleteClient, createUrl_some, createHeaders_some_false],
      by simp [createProject, createUrl_some, createHeaders_some_true],
      by simp [updateProject, createUrl_some, createHeaders_some_true],
      by simp [deleteProject, createUrl_some, createHeaders_some_false],
      by simp [createTask, createUrl_some, createHeaders_some_true, HttpResponse.ok],
      by simp [updateTask, createUrl_some, createHeaders_some_true, HttpResponse.ok],
      by simp [deleteTask, createUrl_some, createHeaders_some_false, HttpResponse.ok]⟩
  · intro h
    subst h
    exact ⟨by simp [deleteClient, createUrl_some, createHeaders_some_false],
      by simp [deleteTask, createUrl_some, createHeaders_some_false, HttpResponse.ok],
      by decide, by decide⟩
  · intro hnok h403 h406
    have hok : (⟨status, stext, body⟩ : HttpResponse).ok = false := by
      simp only [HttpResponse.ok, Bool.and_eq_false_iff, decide_eq_false_iff_not]
      omega
    have h403b : (status == 403) = false := by simp [h403]
    have h406b : (status == 406) = false := by simp [h406]
    exact ⟨by simp [deleteClient, createUrl_some, createHeaders_some_false, h403b, h406b, hok],
      by simp [deleteTask, createUrl_some, createHeaders_some_false, h403b, h406b, hok]⟩
  · intro hnok
    have hok : (⟨status, stext, body⟩ : HttpResponse).ok = false := by
      simp only [HttpResponse.ok, Bool.and_eq_false_iff, decide_eq_false_iff_not]
      omega
    simp [getClients, createUrl_some, createHeaders_some_false, hok]
  · intro h1 h2
    have hok : (⟨status, stext, body⟩ : HttpResponse).ok = true := by
      simp [HttpResponse.ok, h1, h2]
    have h403b : (status == 403) = false := by
      simp only [beq_eq_false_iff_ne, ne_eq]
      omega
    have h406b : (status == 406) = false := by
      simp only [beq_eq_false_iff_ne, ne_eq]
      omega
    exact ⟨by simp [deleteClient, createUrl_some, createHeaders_some_false, h403b, h406b, hok],
      by simp [deleteTask, createUrl_some, createHeaders_some_false, h403b, h406b, hok]⟩

/-- Witness for C3 (amended): at concrete statuses, `getDeletedUsers`
and `deleteClient` on 403 yield their privilege messages, `deleteClient`
on 406 the conflict message and on 500 the generic status-carrying
message, `getClients` on 403 and on 406 the generic status-carrying
message, and `deleteClient` on 204 succeeds. -/
theorem statusMapping_amended_witness :
    (getDeletedUsers (some ⟨"acme", "tok", "App/1.0"⟩)
        (fun _ => ⟨403, "Forbidden", Json.null⟩)).1
      = .error "Forbidden: Only administrators can access deleted users" ∧
    (deleteClient (some ⟨"acme", "tok", "App/1.0"⟩) 7
        (fun _ => ⟨403, "Forbidden", Json.null⟩)).1
      = .error "Forbidden: Only administrators can delete clients" ∧
    (deleteClient (some ⟨"acme", "tok", "App/1.0"⟩) 7
        (fun _ => ⟨406, "Not Acceptable", Json.null⟩)).1
      = .error "Client cannot be deleted because it still has associated projects" ∧
    (deleteClient (some ⟨"acme", "tok", "App/1.0"⟩) 7
        (fun _ => ⟨500, "Internal Server Error", Json.null⟩)).1
      = .error "Failed to delete client with ID 7: 500 Internal Server Error" ∧
    (getClients (some ⟨"acme", "tok", "App/1.0"⟩)
        (fun _ => ⟨403, "Forbidden", Json.null⟩)).1
      = .error "Failed to fetch clients: 403 Forbidden" ∧
    (getClients (some ⟨"acme", "tok", "App/1.0"⟩)
        (fun _ => ⟨406, "Not Acceptable", Json.null⟩)).1
      = .error "Failed to fetch clients: 406 Not Acceptable" ∧
    (deleteClient (some ⟨"acme", "tok", "App/1.0"⟩) 7
        (fun _ => ⟨204, "No Content", Json.null⟩)).1 = .ok () := by
  refine ⟨((statusMapping_amended ⟨"acme", "tok", "App/1.0"⟩ 7 "t" 403 "Forbidden"
      Json.null ⟨"A", "B", "a@b.c", none, none⟩ ⟨"N", none⟩
      ⟨"P", 1, true, true, false, 1, 1⟩
      ⟨none, none, none, none, none, none, none⟩ ⟨"T", 1, 1, true⟩
      ⟨none, none, none, none⟩).1 rfl).1,
    ((statusMapping_amended ⟨"acme", "tok", "App/1.0"⟩ 7 "t" 403 "Forbidden"
      Json.null ⟨"A", "B", "a@b.c", none, none⟩ ⟨"N", none⟩
      ⟨"P", 1, true, true, false, 1, 1⟩
      ⟨none, none, none, none, none, none, none⟩ ⟨"T", 1, 1, true⟩
      ⟨none, none, none, none⟩).1 rfl).2.2.2.2.1,
    ((statusMapping_amended ⟨"acme", "tok", "App/1.0"⟩ 7 "t" 406 "Not Acceptable"
      Json.null ⟨"A", "B", "a@b.c", none, none⟩ ⟨"N", none⟩
      ⟨"P", 1, true, true, false, 1, 1⟩
      ⟨none, none, none, none, none, none, none⟩ ⟨"T", 1, 1, true⟩
      ⟨none, none, none, none⟩).2.2.1 rfl).1,
    ((statusMapping_amended ⟨"acme", "tok", "App/1.0"⟩ 7 "t" 500
      "Internal Server Error" Json.null ⟨"A", "B", "a@b.c", none, none⟩ ⟨"N", none⟩
      ⟨"P", 1, true, true, false, 1, 1⟩
      ⟨none, none, none, none, none, none, none⟩ ⟨"T", 1, 1, true⟩
      ⟨none, none, none, none⟩).2.2.2.1 (by omega) (by omega) (by omega)).1,
    (statusMapping_amended ⟨"acme", "tok", "App/1.0"⟩ 7 "t" 403 "Forbidden"
      Json.null ⟨"A", "B", "a@b.c", none, none⟩ ⟨"N", none⟩
      ⟨"P", 1, true, true, false, 1, 1⟩
      ⟨none, none, none, none, none, none, none⟩ ⟨"T", 1, 1, true⟩
      ⟨none, none, none, none⟩).2.2.2.2.1 (by omega),
    (statusMapping_amended ⟨"acme", "tok", "App/1.0"⟩ 7 "t" 406 "Not Acceptable"
      Json.null ⟨"A", "B", "a@b.c", none, none⟩ ⟨"N", none⟩
      ⟨"P", 1, true, true, false, 1, 1⟩
      ⟨none, none, none, none, none, none, none⟩ ⟨"T", 1, 1, true⟩
      ⟨none, none, none, none⟩).2.2.2.2.1 (by omega),
    ((statusMapping_amended ⟨"acme", "tok", "App/1.0"⟩ 7 "t" 204 "No Content"
      Json.null ⟨"A", "B", "a@b.c", none, none⟩ ⟨"N", none⟩
      ⟨"P", 1, true, true, false, 1, 1⟩
      ⟨none, none, none, none, none, none, none⟩ ⟨"T", 1, 1, true⟩
      ⟨none, none, none, none⟩).2.2.2.2.2 (by omega) (by omega)).1⟩

theorem mem_qStr (key : String) (o : Option String) (k v : String) :
    (k, v) ∈ qStr key o ↔ k = key ∧ o = some v := by
  cases o with
  | none => simp [qStr]
  | some s =>
    simp only [qStr, List.mem_singleton, Prod.mk.injEq, Option.some.injEq]
    constructor
    · rintro ⟨h1, h2⟩; exact ⟨h1, h2.symm⟩
    · rintro ⟨h1, h2⟩; exact ⟨h1, h2.symm⟩

theorem mem_qBool (key : String) (o : Option Bool) (k v : String) :
    (k, v) ∈ qBool key o ↔
      k = key ∧ ∃ b, o = some b ∧ v = (if b then "true" else "false") := by
  cases o with
  | none => simp [qBool]
  | some b =>
    simp only [qBool, List.mem_singleton, Prod.mk.injEq, Option.some.injEq]
    constructor
    · rintro ⟨h1, h2⟩; exact ⟨h1, b, rfl, h2⟩
    · rintro ⟨h1, b2, hb, h2⟩; cases hb; exact ⟨h1, h2⟩

theorem mem_qInt (key : String) (o : Option Int) (k v : String) :
    (k, v) ∈ qInt key o ↔ k = key ∧ ∃ n, o = some n ∧ v = toString n := by
  cases o with
  | none => simp [qInt]
  | some n =>
    simp only [qInt, List.mem_singleton, Prod.mk.injEq, Option.some.injEq]
    constructor
    · rintro ⟨h1, h2⟩; exact ⟨h1, n, rfl, h2⟩
    · rintro ⟨h1, n2, hn, h2⟩; cases hn; exact ⟨h1, h2⟩

theorem mem_queryPairs (p : GetEntriesParams) (k v : String) :
    (k, v) ∈ p.queryPairs ↔
      (k = "start_date" ∧ p.start_date = some v) ∨
      (k = "end_date" ∧ p.end_date = some v) ∨
      (k = "updated_at" ∧ p.updated_at = some v) ∨
      (k = "billable" ∧ ∃ b, p.billable = some b ∧ v = (if b then "true" else "false")) ∨
      (k = "project_id" ∧ ∃ n, p.project_id = some n ∧ v = toString n) ∨
      (k = "task_id" ∧ ∃ n, p.task_id = some n ∧ v = toString n) ∨
      (k = "user_id" ∧ ∃ n, p.user_id = some n ∧ v = toString n) ∨
      (k = "billed" ∧ ∃ b, p.billed = some b ∧ v = (if b then "true" else "false")) := by
  simp only [GetEntriesParams.queryPairs, List.mem_append, List.append_assoc,
    mem_qStr, mem_qBool, mem_qInt]

/-- C7 counterexample: `page = 0` is a defined (non-undefined) field of
the projects filter object, yet the issued URL carries no query string
at all — the truthiness test `if (params.page)` drops it — so the
query string is not built from every defined field. -/
theorem projectsQuery_page_zero_counterexample :
    (getProjects (some ⟨"acme", "tok", "App/1.0"⟩) ⟨some 0⟩
        (fun _ => ⟨200, "OK", Json.null⟩)).2.map FetchArgs.url
      = ["https://www.tickspot.com/acme/api/v2/projects.json"] ∧
    ¬ ("page".toList).IsInfix
        ("https://www.tickspot.com/acme/api/v2/projects.json".toList) := by
  exact ⟨by decide, by decide⟩

/-- C7 amended: for all four entries-listing operations the query
string is built by URL-encoding and joining exactly the defined
(non-undefined) fields of the filter object, each stringified to its
literal string form (booleans and numbers included), with undefined
fields omitted (the first two conjuncts characterize the serializer
and the pair list; the next four give the resulting URLs of
`getEntries`, `getUserEntries`, `getProjectEntries` and
`getTaskEntries`); for the projects list/closed operations the page
parameter is appended exactly when it is defined and nonzero
(JavaScript truthiness of the number), and otherwise the URL carries no
query string. -/
theorem query_serialization_amended (c : TickConfig) (tr : Transport)
    (p : GetEntriesParams) (uid pid tid : Int) (pg : GetProjectsParams)
    (pairs : List (String × String)) (hp : entriesParamsMissing p = false) :
    serializeQuery pairs
      = String.intercalate "&"
          (pairs.map fun kv => urlencode kv.1 ++ "=" ++ urlencode kv.2) ∧
    (∀ k v : String, (k, v) ∈ p.queryPairs ↔
      (k = "start_date" ∧ p.start_date = some v) ∨
      (k = "end_date" ∧ p.end_date = some v) ∨
      (k = "updated_at" ∧ p.updated_at = some v) ∨
      (k = "billable" ∧ ∃ b, p.billable = some b ∧ v = (if b then "true" else "false")) ∨
      (k = "project_id" ∧ ∃ n, p.project_id = some n ∧ v = toString n) ∨
      (k = "task_id" ∧ ∃ n, p.task_id = some n ∧ v = toString n) ∨
      (k = "user_id" ∧ ∃ n, p.user_id = some n ∧ v = toString n) ∨
      (k = "billed" ∧ ∃ b, p.billed = some b ∧ v = (if b then "true" else "false"))) ∧
    (getEntries (some c) p tr).2.map FetchArgs.url
      = [apiUrl c ("entries.json?" ++ serializeQuery p.queryPairs)] ∧
    (getUserEntries (some c) uid p tr).2.map FetchArgs.url
      = [apiUrl c ("users/" ++ toString uid ++ "/entries.json?"
          ++ serializeQuery p.queryPairs)] ∧
    (getProjectEntries (some c) pid p tr).2.map FetchArgs.url
      = [apiUrl c ("projects/" ++ toString pid ++ "/entries.json?"
          ++ serializeQuery p.queryPairs)] ∧
    (getTaskEntries (some c) tid p tr).2.map FetchArgs.url
      = [apiUrl c ("tasks/" ++ toString tid ++ "/entries.json?"
          ++ serializeQuery p.queryPairs)] ∧
    (∀ m : Int, projectsQueryString ⟨some m⟩
      = if m = 0 then "" else serializeQuery [("page", toString m)]) ∧
    projectsQueryString ⟨none⟩ = "" ∧
    (getProjects (some c) pg tr).2.map FetchArgs.url
      = [apiUrl c (if projectsQueryString pg == "" then "projects.json"
          else "projects.json?" ++ projectsQueryString pg)] ∧
    (getClosedProjects (some c) pg tr).2.map FetchArgs.url
      = [apiUrl c (if projectsQueryString pg == "" then "projects/closed.json"
          else "projects/closed.json?" ++ projectsQueryString pg)] := by
  refine ⟨rfl, mem_queryPairs p, ?_, ?_, ?_, ?_, ?_, rfl, ?_, ?_⟩
  · rw [getEntries_requests _ _ _ hp]; rfl
  · rw [getUserEntries_requests _ _ _ _ hp]; rfl
  · rw [getProjectEntries_requests _ _ _ _ hp]; rfl
  · rw [getTaskEntries_requests _ _ _ _ hp]; rfl
  · intro m
    by_cases h : m = 0 <;> simp [projectsQueryString, h]
  · rw [getProjects_requests]
    cases h : projectsQueryString pg == "" <;> simp [h]
  · rw [getClosedProjects_requests]
    cases h : projectsQueryString pg == "" <;> simp [h]

/-- Witness for C7 (amended): a concrete entries filter yields exactly
the URL-encoded serialization of its defined fields. -/
theorem query_serialization_amended_witness :
    (getEntries (some ⟨"acme", "tok", "App/1.0"⟩)
        ⟨some "2024-01-01", some "2024-02-01", none, some true, some 7, none, none, none⟩
        (fun _ => ⟨200, "OK", Json.null⟩)).2.map FetchArgs.url
      = ["https://www.tickspot.com/acme/api/v2/entries.json?start_date=2024-01-01&end_date=2024-02-01&billable=true&project_id=7"] ∧
    (getTaskEntries (some ⟨"acme", "tok", "App/1.0"⟩) 9
        ⟨some "2024-01-01", some "2024-02-01", none, some true, some 7, none, none, none⟩
        (fun _ => ⟨200, "OK", Json.null⟩)).2.map FetchArgs.url
      = ["https://www.tickspot.com/acme/api/v2/tasks/9/entries.json?start_date=2024-01-01&end_date=2024-02-01&billable=true&project_id=7"] := by
  have h := query_serialization_amended ⟨"acme", "tok", "App/1.0"⟩
    (fun _ => ⟨200, "OK", Json.null⟩)
    ⟨some "2024-01-01", some "2024-02-01", none, some true, some 7, none, none, none⟩
    1 2 9 ⟨none⟩ [] (by decide)
  constructor
  · rw [h.2.2.1]
    decide
  · rw [h.2.2.2.2.2.1]
    decide

end TickApi
